import Mathlib

/-!
# Panel controllers of ignite: a shallow embedding

Embedding of `controllers/panel.go`: the method catalog built by `init`,
`PanelIndexHandler` and `CreateServiceHandler`.

The handlers talk to three collaborators that live outside the file: the
persistence engine (`router.db`), the port allocator (`utils.GetAvailablePort`)
and the container runtime (`ss.CreateAndStartContainer`, `ss.RemoveContainer`).
They are taken as the fields of an environment `Env W` acting on a world `W`;
every collaborator call a handler makes is appended to a call log, so that
"how many calls, with which arguments" is a statement about the returned log.
-/

namespace Ignite

/-! ## Data model -/

/-- A float32 value kept as its IEEE-754 bit pattern. Arithmetic and printing on it
are supplied by the environment. -/
structure Float32 where
  bits : Nat
deriving DecidableEq, Repr

/-- A time.Time value kept as its two integer words. -/
structure Time where
  wall : Nat
  ext : Int
deriving DecidableEq, Repr

/-- The fields of models.User the two handlers read or write. -/
structure User where
  Id : Int
  Username : String
  Status : Int
  PackageUsed : Float32
  PackageLimit : Int
  ServicePort : Int
  ServicePwd : String
  ServiceMethod : String
  ServiceType : String
  ServiceId : String
  Expired : Time
deriving DecidableEq, Repr

/-- The Go zero value produced by new(models.User). -/
def User.zero : User :=
  { Id := 0, Username := "", Status := 0, PackageUsed := ⟨0⟩, PackageLimit := 0,
    ServicePort := 0, ServicePwd := "", ServiceMethod := "", ServiceType := "",
    ServiceId := "", Expired := ⟨0, 0⟩ }

/-- The fields of models.ServiceResult the handler reads or writes. -/
structure ServiceResult where
  ID : String
  Host : String
  Port : Int
  Password : String
  PackageLimit : Int
deriving DecidableEq, Repr

/-- The fields of models.UserInfo filled by PanelIndexHandler. -/
structure UserInfo where
  Id : Int
  Host : String
  Username : String
  Status : Int
  PackageUsed : String
  PackageLimit : Int
  PackageLeft : String
  PackageLeftPercent : String
  ServicePort : Int
  ServicePwd : String
  ServiceMethod : String
  ServiceType : String
  Expired : String
  ServiceURL : String
deriving DecidableEq, Repr

/-- The payloads the two handlers put in the Data field of a response. -/
inductive Data where
  | none
  | service (result : ServiceResult)
  | panel (uInfo : UserInfo) (ss_methods ssr_methods servers : List String)
deriving DecidableEq, Repr

/-- The uniform envelope models.Response. -/
structure Response where
  Success : Bool
  Message : String
  Data : Data
deriving DecidableEq, Repr

/-! ## Method catalog (package variables and `init`) -/

def servers : List String := ["SS", "SSR"]

def ssMethods : List String :=
  ["aes-256-cfb", "aes-128-gcm", "aes-192-gcm", "aes-256-gcm", "chacha20-ietf-poly1305"]

def ssrMethods : List String :=
  ["aes-256-cfb", "aes-256-ctr", "chacha20", "chacha20-ietf"]

/-- A Go map with string keys, as an association list read front to back. -/
structure GoMap (V : Type) where
  entries : List (String × V)

/-- The empty map of a map literal. -/
def GoMap.empty {V : Type} : GoMap V := ⟨[]⟩

/-- Assignment m[k] = v. -/
def GoMap.set {V : Type} (m : GoMap V) (k : String) (v : V) : GoMap V :=
  ⟨(k, v) :: m.entries.filter (fun kv => kv.1 != k)⟩

/-- Two-valued lookup v, ok := m[k]. -/
def GoMap.get? {V : Type} (m : GoMap V) (k : String) : Option V :=
  (m.entries.find? (fun kv => kv.1 == k)).map Prod.snd

/-- One-valued lookup m[k] of a bool map: the zero value false when the key is absent. -/
def GoMap.getBool (m : GoMap Bool) (k : String) : Bool :=
  (m.get? k).getD false

/-- The loop of init that marks every method of a list as permitted. -/
def methodSet (methods : List String) : GoMap Bool :=
  methods.foldl (fun m method => m.set method true) GoMap.empty

/-- The value of serverMethodsMap once init has run. -/
def serverMethodsMap : GoMap (GoMap Bool) :=
  let ssMethodMap := methodSet ssMethods
  let ssrMethodMap := methodSet ssrMethods
  (GoMap.empty.set "SS" ssMethodMap).set "SSR" ssrMethodMap

/-! ## Collaborators -/

/-- A collaborator call issued by a handler, with its arguments. -/
inductive Call where
  | dbGet (id : Int)
  | dbFindPorts
  | getAvailablePort (usedPorts : List Int)
  | createAndStartContainer (serverType name method password : String) (port : Int)
  | dbUpdate (id : Int) (cols : List String) (bean : User)
  | removeContainer (id : String)
deriving DecidableEq, Repr

/-- Whether a call goes to the container runtime. -/
def Call.isRuntime : Call → Bool
  | .createAndStartContainer _ _ _ _ _ => true
  | .removeContainer _ => true
  | _ => false

/-- Whether a call goes to the persistence store. -/
def Call.isStore : Call → Bool
  | .dbGet _ => true
  | .dbFindPorts => true
  | .dbUpdate _ _ _ => true
  | _ => false

/-- Whether a call is a container removal. -/
def Call.isRemove : Call → Bool
  | .removeContainer _ => true
  | _ => false

/-- Whether a call is a container creation. -/
def Call.isCreate : Call → Bool
  | .createAndStartContainer _ _ _ _ _ => true
  | _ => false

/-- Whether a call is an update of a user record. -/
def Call.isUpdate : Call → Bool
  | .dbUpdate _ _ _ => true
  | _ => false

/-- The collaborators of the handlers, acting on a world W. Go errors are kept as
their message. -/
structure Env (W : Type) where
  /-- The call router.db.Id(id).Get(user): the row when one was found. -/
  dbGet : W → Int → Option User × W
  /-- The call router.db.Table("user").Cols("service_port").Find(&usedPorts). -/
  dbFindPorts : W → List Int × W
  /-- The call utils.GetAvailablePort(&usedPorts). -/
  GetAvailablePort : W → List Int → Except String Int × W
  /-- The call ss.CreateAndStartContainer(serverType, name, method, password, port). -/
  CreateAndStartContainer :
    W → String → String → String → String → Int → Except String ServiceResult × W
  /-- The call router.db.Id(id).Cols(cols...).Update(user): rows affected and error. -/
  dbUpdate : W → Int → List String → User → (Int × Option String) × W
  /-- The call ss.RemoveContainer(id). -/
  RemoveContainer : W → String → Option String × W
  /-- The package variable ss.Host. -/
  ssHost : String
  /-- The configuration value config.C.Host.Address. -/
  configHostAddress : String
  /-- The function utils.ServiceURL. -/
  ServiceURL : String → String → Int → String → String → String
  /-- The rune mapping unicode.ToLower. -/
  unicodeToLower : Char → Char
  /-- The conversion float32(n) of an int. -/
  f32OfInt : Int → Float32
  f32Sub : Float32 → Float32 → Float32
  f32Div : Float32 → Float32 → Float32
  f32Mul : Float32 → Float32 → Float32
  /-- The formatting fmt.Sprintf("%.2f", x). -/
  sprintf2f : Float32 → String
  /-- The formatting t.Format(layout). -/
  timeFormat : Time → String → String

/-- The result of running a handler: the JSON response and its HTTP status, the
collaborator calls in the order they were made, the lines written to the log, and the
world the collaborators were left in. -/
structure Outcome (W : Type) where
  status : Nat
  resp : Response
  calls : List Call
  logs : List String
  world : W

/-- The constant http.StatusOK. -/
def StatusOK : Nat := 200

/-- The function strings.ToLower, rune by rune. -/
def stringsToLower (lower : Char → Char) (s : String) : String :=
  ⟨s.data.map lower⟩

/-- The column list of the update issued by CreateServiceHandler. -/
def updateCols : List String :=
  ["status", "service_port", "service_pwd", "service_id", "service_method", "service_type"]

/-- The six assignments to the fields of user made before the update. -/
def User.assignService (user : User) (result : ServiceResult) (method serverType : String) :
    User :=
  { user with
    Status := 1
    ServiceId := result.ID
    ServicePort := result.Port
    ServicePwd := result.Password
    ServiceMethod := method
    ServiceType := serverType }

/-- The service result as returned to the caller: the two assignments made after a
successful update. -/
def ServiceResult.forDisplay (result : ServiceResult) (user : User) (host : String) :
    ServiceResult :=
  { result with PackageLimit := user.PackageLimit, Host := host }

/-- The log line written when the update returned an error. -/
def updateErrorLog : Option String → List String
  | some e => ["Update user info error: " ++ e]
  | Option.none => []

/-! ## CreateServiceHandler -/

/-- The handler CreateServiceHandler for the request of user userID with form fields
method and server-type. -/
def CreateServiceHandler {W : Type} (env : Env W) (w : W)
    (userID : Int) (method serverType : String) : Outcome W :=
  match serverMethodsMap.get? serverType with
  | none =>
    ⟨StatusOK, ⟨false, "服务类型配置错误!", .none⟩, [], [], w⟩
  | some methodMap =>
    if !methodMap.getBool method then
      ⟨StatusOK, ⟨false, "加密方法配置错误!", .none⟩, [], [], w⟩
    else
      let got := env.dbGet w userID
      let user := got.1.getD User.zero
      let c1 := [Call.dbGet userID]
      if user.ServiceId != "" then
        ⟨StatusOK, ⟨false, "服务已创建!", .none⟩, c1, [], got.2⟩
      else
        let found := env.dbFindPorts got.2
        let usedPorts := found.1
        let c2 := c1 ++ [Call.dbFindPorts]
        let alloc := env.GetAvailablePort found.2 usedPorts
        let c3 := c2 ++ [Call.getAvailablePort usedPorts]
        match alloc.1 with
        | .error _ =>
          ⟨StatusOK, ⟨false, "创建服务失败,没有可用端口!", .none⟩, c3, [], alloc.2⟩
        | .ok port =>
          let name := stringsToLower env.unicodeToLower user.Username
          let started := env.CreateAndStartContainer alloc.2 serverType name method "" port
          let c4 := c3 ++ [Call.createAndStartContainer serverType name method "" port]
          match started.1 with
          | .error err =>
            ⟨StatusOK, ⟨false, "创建服务失败!", .none⟩, c4,
              ["Create ss service error: " ++ err], started.2⟩
          | .ok result =>
            let user1 := user.assignService result method serverType
            let updated := env.dbUpdate started.2 userID updateCols user1
            let c5 := c4 ++ [Call.dbUpdate userID updateCols user1]
            let affected := updated.1.1
            let uerr := updated.1.2
            if affected == 0 || uerr.isSome then
              let logs := updateErrorLog uerr
              let removed := env.RemoveContainer updated.2 result.ID
              ⟨StatusOK, ⟨false, "更新用户信息失败!", .none⟩,
                c5 ++ [Call.removeContainer result.ID], logs, removed.2⟩
            else
              let result1 := result.forDisplay user1 env.ssHost
              ⟨StatusOK, ⟨true, "服务创建成功!", .service result1⟩, c5, [], updated.2⟩

/-! ## PanelIndexHandler -/

/-- The handler PanelIndexHandler for the request of user userID. -/
def PanelIndexHandler {W : Type} (env : Env W) (w : W) (userID : Int) : Outcome W :=
  let got := env.dbGet w userID
  let c1 := [Call.dbGet userID]
  match got.1 with
  | none =>
    ⟨StatusOK, ⟨false, "用户已删除!", .none⟩, c1, [], got.2⟩
  | some user =>
    let uInfo : UserInfo :=
      { Id := user.Id
        Host := env.ssHost
        Username := user.Username
        Status := user.Status
        PackageUsed := env.sprintf2f user.PackageUsed
        PackageLimit := user.PackageLimit
        PackageLeft := env.sprintf2f (env.f32Sub (env.f32OfInt user.PackageLimit) user.PackageUsed)
        PackageLeftPercent := ""
        ServicePort := user.ServicePort
        ServicePwd := user.ServicePwd
        ServiceMethod := user.ServiceMethod
        ServiceType := user.ServiceType
        Expired := env.timeFormat user.Expired "2006-01-02"
        ServiceURL := env.ServiceURL user.ServiceType env.configHostAddress user.ServicePort
          user.ServiceMethod user.ServicePwd }
    let uInfo1 : UserInfo :=
      if uInfo.ServiceMethod == "" then { uInfo with ServiceMethod := "aes-256-cfb" } else uInfo
    let uInfo2 : UserInfo :=
      if uInfo1.ServiceType == "" then { uInfo1 with ServiceType := "SS" } else uInfo1
    let uInfo3 : UserInfo :=
      if user.PackageLimit == 0 then
        { uInfo2 with PackageLeftPercent := "0" }
      else
        { uInfo2 with
          PackageLeftPercent :=
            env.sprintf2f
              (env.f32Mul
                (env.f32Div (env.f32Sub (env.f32OfInt user.PackageLimit) user.PackageUsed)
                  (env.f32OfInt user.PackageLimit))
                (env.f32OfInt 100)) }
    ⟨StatusOK, ⟨true, "用户信息获取成功!", .panel uInfo3 ssMethods ssrMethods servers⟩,
      c1, [], got.2⟩

/-! ## A relational store behind `router.db`

The three statements the handlers issue, read off their query builders, on a table of
user rows: a select by primary key, a select of one column over the whole table, and an
update of the listed columns of the rows whose primary key matches. -/

/-- The user table. -/
structure Store where
  rows : List User
deriving DecidableEq, Repr

/-- The statement Id(id).Get(user): the row whose primary key is id. -/
def Store.get (st : Store) (id : Int) : Option User :=
  st.rows.find? (fun row => row.Id == id)

/-- The statement Table("user").Cols("service_port").Find(&usedPorts). -/
def Store.findPorts (st : Store) : List Int :=
  st.rows.map (fun row => row.ServicePort)

/-- The row obtained from row by writing the listed columns of bean. -/
def setCols (cols : List String) (bean row : User) : User :=
  { row with
    Status := if "status" ∈ cols then bean.Status else row.Status
    ServicePort := if "service_port" ∈ cols then bean.ServicePort else row.ServicePort
    ServicePwd := if "service_pwd" ∈ cols then bean.ServicePwd else row.ServicePwd
    ServiceId := if "service_id" ∈ cols then bean.ServiceId else row.ServiceId
    ServiceMethod := if "service_method" ∈ cols then bean.ServiceMethod else row.ServiceMethod
    ServiceType := if "service_type" ∈ cols then bean.ServiceType else row.ServiceType }

/-- The statement Id(id).Cols(cols...).Update(bean): the only condition is the primary
key; the number of rows it matched is reported as affected. -/
def Store.update (st : Store) (id : Int) (cols : List String) (bean : User) : Int × Store :=
  (((st.rows.filter (fun row => row.Id == id)).length : Int),
    ⟨st.rows.map (fun row => if row.Id == id then setCols cols bean row else row)⟩)

/-- The environment whose persistence engine is the store above and never fails, the
other collaborators being those of env, acting on their own part R of the world. -/
def withStore {R : Type} (env : Env R) : Env (Store × R) :=
  { dbGet := fun w id => (w.1.get id, w)
    dbFindPorts := fun w => (w.1.findPorts, w)
    GetAvailablePort := fun w used =>
      ((env.GetAvailablePort w.2 used).1, (w.1, (env.GetAvailablePort w.2 used).2))
    CreateAndStartContainer := fun w t n m p port =>
      ((env.CreateAndStartContainer w.2 t n m p port).1,
        (w.1, (env.CreateAndStartContainer w.2 t n m p port).2))
    dbUpdate := fun w id cols bean =>
      (((w.1.update id cols bean).1, Option.none), ((w.1.update id cols bean).2, w.2))
    RemoveContainer := fun w id =>
      ((env.RemoveContainer w.2 id).1, (w.1, (env.RemoveContainer w.2 id).2))
    ssHost := env.ssHost
    configHostAddress := env.configHostAddress
    ServiceURL := env.ServiceURL
    unicodeToLower := env.unicodeToLower
    f32OfInt := env.f32OfInt
    f32Sub := env.f32Sub
    f32Div := env.f32Div
    f32Mul := env.f32Mul
    sprintf2f := env.sprintf2f
    timeFormat := env.timeFormat }

/-! ## CreateServiceHandler, one collaborator call at a time

The same handler cut at its collaborator calls, so that the calls of two requests can be
interleaved on one world. -/

/-- The form fields and user id of a create-service request. -/
structure Request where
  userID : Int
  method : String
  serverType : String
deriving DecidableEq, Repr

/-- The point a request has reached, with the local variables live there. -/
inductive Pc where
  | start
  | findPorts (user : User)
  | allocate (user : User) (usedPorts : List Int)
  | create (user : User) (port : Int)
  | update (user : User) (result : ServiceResult)
  | remove (result : ServiceResult)
  | done (resp : Response)
deriving DecidableEq, Repr

/-- A request in flight: where it is, and the calls and log lines it has made. -/
structure Proc where
  pc : Pc
  calls : List Call
  logs : List String
deriving DecidableEq, Repr

/-- A request that has not started. -/
def Proc.new : Proc := ⟨.start, [], []⟩

/-- The next collaborator call of a request, with the local computation that follows it
up to the next call or to the response. -/
def step {W : Type} (env : Env W) (req : Request) (p : Proc) (w : W) : Proc × W :=
  match p.pc with
  | .start =>
    match serverMethodsMap.get? req.serverType with
    | none => (⟨.done ⟨false, "服务类型配置错误!", .none⟩, p.calls, p.logs⟩, w)
    | some methodMap =>
      if !methodMap.getBool req.method then
        (⟨.done ⟨false, "加密方法配置错误!", .none⟩, p.calls, p.logs⟩, w)
      else
        let got := env.dbGet w req.userID
        let user := got.1.getD User.zero
        let calls := p.calls ++ [Call.dbGet req.userID]
        if user.ServiceId != "" then
          (⟨.done ⟨false, "服务已创建!", .none⟩, calls, p.logs⟩, got.2)
        else
          (⟨.findPorts user, calls, p.logs⟩, got.2)
  | .findPorts user =>
    let found := env.dbFindPorts w
    (⟨.allocate user found.1, p.calls ++ [Call.dbFindPorts], p.logs⟩, found.2)
  | .allocate user usedPorts =>
    let alloc := env.GetAvailablePort w usedPorts
    let calls := p.calls ++ [Call.getAvailablePort usedPorts]
    match alloc.1 with
    | .error _ => (⟨.done ⟨false, "创建服务失败,没有可用端口!", .none⟩, calls, p.logs⟩, alloc.2)
    | .ok port => (⟨.create user port, calls, p.logs⟩, alloc.2)
  | .create user port =>
    let name := stringsToLower env.unicodeToLower user.Username
    let started := env.CreateAndStartContainer w req.serverType name req.method "" port
    let calls := p.calls ++ [Call.createAndStartContainer req.serverType name req.method "" port]
    match started.1 with
    | .error err =>
      (⟨.done ⟨false, "创建服务失败!", .none⟩, calls,
        p.logs ++ ["Create ss service error: " ++ err]⟩, started.2)
    | .ok result =>
      let user1 := user.assignService result req.method req.serverType
      (⟨.update user1 result, calls, p.logs⟩, started.2)
  | .update user result =>
    let updated := env.dbUpdate w req.userID updateCols user
    let calls := p.calls ++ [Call.dbUpdate req.userID updateCols user]
    let affected := updated.1.1
    let uerr := updated.1.2
    if affected == 0 || uerr.isSome then
      let logs := updateErrorLog uerr
      (⟨.remove result, calls, p.logs ++ logs⟩, updated.2)
    else
      let result1 := result.forDisplay user env.ssHost
      (⟨.done ⟨true, "服务创建成功!", .service result1⟩, calls, p.logs⟩, updated.2)
  | .remove result =>
    let removed := env.RemoveContainer w result.ID
    (⟨.done ⟨false, "更新用户信息失败!", .none⟩,
      p.calls ++ [Call.removeContainer result.ID], p.logs⟩, removed.2)
  | .done _ => (p, w)

/-- A request run alone for n steps. -/
def runSolo {W : Type} (env : Env W) (req : Request) : Nat → Proc × W → Proc × W
  | 0, c => c
  | n + 1, c => runSolo env req n (step env req c.1 c.2)

/-- Two requests in flight on one world. -/
structure Pair (W : Type) where
  p1 : Proc
  p2 : Proc
  world : W

/-- One step of the first request when first is true, of the second otherwise. -/
def stepPair {W : Type} (env : Env W) (r1 r2 : Request) (first : Bool) (c : Pair W) : Pair W :=
  if first then
    ⟨(step env r1 c.p1 c.world).1, c.p2, (step env r1 c.p1 c.world).2⟩
  else
    ⟨c.p1, (step env r2 c.p2 c.world).1, (step env r2 c.p2 c.world).2⟩

/-- The two requests run along a schedule. -/
def runPair {W : Type} (env : Env W) (r1 r2 : Request) : List Bool → Pair W → Pair W
  | [], c => c
  | b :: s, c => runPair env r1 r2 s (stepPair env r1 r2 b c)

/-- Whether the request is about to issue its update. -/
def Pc.atUpdate : Pc → Bool
  | .update _ _ => true
  | _ => false

/-- Whether the request has not yet read the user record. -/
def Pc.atStart : Pc → Bool
  | .start => true
  | _ => false

/-- The response of a finished request. -/
def Pc.response? : Pc → Option Response
  | .done resp => some resp
  | _ => Option.none

/-- Whether, along the schedule, no request issues its update while the other has not
yet read the user record. -/
def readsPrecedeUpdates {W : Type} (env : Env W) (r1 r2 : Request) :
    List Bool → Pair W → Bool
  | [], _ => true
  | b :: s, c =>
    (if b then !(c.p1.pc.atUpdate && c.p2.pc.atStart)
      else !(c.p2.pc.atUpdate && c.p1.pc.atStart))
    && readsPrecedeUpdates env r1 r2 s (stepPair env r1 r2 b c)

/-! ## The claims of the specification, as predicates -/

/-- The specification's input constraint: the type is SS or SSR and the method is in the
permitted list of that type. -/
def Permitted (serverType method : String) : Prop :=
  (serverType = "SS" ∧ method ∈ ssMethods) ∨ (serverType = "SSR" ∧ method ∈ ssrMethods)

instance (serverType method : String) : Decidable (Permitted serverType method) := by
  unfold Permitted; infer_instance

/-- The starting point of two requests on a store st and a runtime in state r. -/
def Pair.start {R : Type} (st : Store) (r : R) : Pair (Store × R) :=
  ⟨Proc.new, Proc.new, (st, r)⟩

/-- The number of removal calls a request has made. -/
def Proc.removals (p : Proc) : Nat :=
  (p.calls.filter Call.isRemove).length

/-- Whether a response is one the specification allows the loser of a race: unsuccessful,
with the already-provisioned or the persistence-failure message. -/
def lostRace (resp : Response) : Bool :=
  !resp.Success && (resp.Message == "服务已创建!" || resp.Message == "更新用户信息失败!")

/-- The specification's outcome for two racing requests: both have answered, exactly one
reports success, the other reports the already-provisioned or the persistence failure,
and exactly one compensating removal has been made. -/
def exactlyOneSucceeds {W : Type} (c : Pair W) : Bool :=
  match c.p1.pc, c.p2.pc with
  | .done resp1, .done resp2 =>
    ((resp1.Success && lostRace resp2) || (resp2.Success && lostRace resp1))
      && (c.p1.removals + c.p2.removals == 1)
  | _, _ => false

/-- The specification's claim about a race, on the relational store: for two permitted
requests of the same unprovisioned user, run along a schedule on which both read the
record before either updates it and both answer, exactly one succeeds. -/
def RaceClaim {R : Type} (env : Env R) (st : Store) (r : R) (r1 r2 : Request)
    (s : List Bool) : Prop :=
  Permitted r1.serverType r1.method → Permitted r2.serverType r2.method →
  r1.userID = r2.userID →
  (∃ u, st.get r1.userID = some u ∧ u.ServiceId = "") →
  readsPrecedeUpdates (withStore env) r1 r2 s (Pair.start st r) = true →
  ((runPair (withStore env) r1 r2 s (Pair.start st r)).p1.pc.response?).isSome = true →
  ((runPair (withStore env) r1 r2 s (Pair.start st r)).p2.pc.response?).isSome = true →
  exactlyOneSucceeds (runPair (withStore env) r1 r2 s (Pair.start st r)) = true

/-- What the allocator or the runtime can refuse a request: a port, or a container. -/
inductive Refusal where
  | port
  | container
deriving DecidableEq, Repr

/-- The refusal the next call of a request meets in the world w, if that call is the
allocation and the allocator returns an error, or the container start and the runtime
returns an error. -/
def refusalAt {W : Type} (env : Env W) (req : Request) (p : Proc) (w : W) : Option Refusal :=
  match p.pc with
  | .allocate _ usedPorts =>
    match (env.GetAvailablePort w usedPorts).1 with
    | .error _ => some .port
    | .ok _ => Option.none
  | .create user port =>
    match (env.CreateAndStartContainer w req.serverType
        (stringsToLower env.unicodeToLower user.Username) req.method "" port).1 with
    | .error _ => some .container
    | .ok _ => Option.none
  | _ => Option.none

/-- The refusal the scheduled request meets in the step it is about to take, when that
request is the one asked about (the first one when who is true). -/
def ownRefusal {W : Type} (env : Env W) (r1 r2 : Request) (who first : Bool) (c : Pair W) :
    Option Refusal :=
  if first = who then
    (if first then refusalAt env r1 c.p1 c.world else refusalAt env r2 c.p2 c.world)
  else Option.none

/-- The first refusal a request meets in its own calls along a schedule (the first request
when who is true, the second otherwise). -/
def refusalAlong {W : Type} (env : Env W) (r1 r2 : Request) (who : Bool) :
    List Bool → Pair W → Option Refusal
  | [], _ => Option.none
  | b :: s, c =>
    (ownRefusal env r1 r2 who b c).or (refusalAlong env r1 r2 who s (stepPair env r1 r2 b c))

/-- Whether resp is the answer of a request that met the given refusal: the success with
its message when it met none, the no-available-port response when it was refused a port,
the provisioning-failure response when it was refused a container. -/
def answers : Option Refusal → Response → Bool
  | Option.none, resp => resp.Success && resp.Message == "服务创建成功!"
  | some .port, resp => resp == ⟨false, "创建服务失败,没有可用端口!", .none⟩
  | some .container, resp => resp == ⟨false, "创建服务失败!", .none⟩

/-- A racing request on its way, given the refusal met so far in its own calls: it has made
no removal call, it is not at the removal, it has met no refusal while it is still
running, and its answer, once given, is the one for the refusal met. -/
def GoodProc (p : Proc) (met : Option Refusal) : Prop :=
  p.removals = 0
  ∧ match p.pc with
    | .remove _ => False
    | .done resp => answers met resp = true
    | _ => met = Option.none

/-- The number of calls still ahead of a request that never reaches the removal. -/
def Pc.togo : Pc → Nat
  | .start => 5
  | .findPorts _ => 4
  | .allocate _ _ => 3
  | .create _ _ => 2
  | .update _ _ => 1
  | .remove _ => 1
  | .done _ => 0

/-- The invariant of a race for the row of user uid, given the refusals the two requests
have met so far: the row is there; as long as a request has not read it, its service_id
is empty; and both requests are on their way. -/
def RaceInv {R : Type} (uid : Int) (c : Pair (Store × R)) (met1 met2 : Option Refusal) : Prop :=
  (c.world.1.get uid).isSome = true
  ∧ ((c.p1.pc = .start ∨ c.p2.pc = .start) →
      ∃ u, c.world.1.get uid = some u ∧ u.ServiceId = "")
  ∧ GoodProc c.p1 met1 ∧ GoodProc c.p2 met2

/-- The specification's claim about two requests in sequence, on the relational store: a
permitted request of a user made after a fully successful request of the same user gets
the already-created response and makes no call but the read. -/
def SequentialClaim {R : Type} (env : Env R) (st : Store) (r : R) (userID : Int)
    (method0 serverType0 method serverType : String) : Prop :=
  Permitted serverType method →
  (CreateServiceHandler (withStore env) (st, r) userID method0 serverType0).resp.Success = true →
  (CreateServiceHandler (withStore env)
      (CreateServiceHandler (withStore env) (st, r) userID method0 serverType0).world
      userID method serverType).resp = ⟨false, "服务已创建!", .none⟩
  ∧ (CreateServiceHandler (withStore env)
      (CreateServiceHandler (withStore env) (st, r) userID method0 serverType0).world
      userID method serverType).calls = [Call.dbGet userID]

/-! ## Concrete collaborators used to instantiate the theorems -/

/-- A port allocator over the range 10000..10001: the lowest port not in use. -/
def demoAllocate (usedPorts : List Int) : Except String Int :=
  if (10000 : Int) ∉ usedPorts then .ok 10000
  else if (10001 : Int) ∉ usedPorts then .ok 10001
  else .error "no available port"

/-- A container runtime whose world is the number of containers started so far: it names
its containers c, cc, ccc and refuses to start a fourth. Its own persistence engine is
one that is down (no row is read, every update returns an error); under withStore it is
replaced by the relational store. Its float32 and time fields are stand-ins. -/
def demoEnv : Env Nat :=
  { dbGet := fun r _ => (Option.none, r)
    dbFindPorts := fun r => ([], r)
    GetAvailablePort := fun r used => (demoAllocate used, r)
    CreateAndStartContainer := fun r _ _ _ _ port =>
      if r < 3 then
        (.ok ⟨String.mk (List.replicate (r + 1) 'c'), "", port, "secret", 0⟩, r + 1)
      else (.error "no capacity", r)
    dbUpdate := fun r _ _ _ => ((0, some "connection refused"), r)
    RemoveContainer := fun r _ => (Option.none, r)
    ssHost := "relay.example"
    configHostAddress := "relay.example"
    ServiceURL := fun t h _ m p => t ++ "://" ++ m ++ ":" ++ p ++ "@" ++ h
    unicodeToLower := Char.toLower
    f32OfInt := fun _ => ⟨0⟩
    f32Sub := fun a _ => a
    f32Div := fun a _ => a
    f32Mul := fun a _ => a
    sprintf2f := fun _ => "0.00"
    timeFormat := fun _ _ => "0001-01-01" }

/-- The same collaborators, with a runtime that reports every container it starts under the
empty id. -/
def blankIdEnv : Env Nat :=
  { demoEnv with
    CreateAndStartContainer := fun r _ _ _ _ port => (.ok ⟨"", "", port, "secret", 0⟩, r + 1) }

/-- An unprovisioned user row. -/
def demoUser (id : Int) (name : String) : User :=
  { User.zero with Id := id, Username := name, PackageLimit := 100 }

/-- A table with two unprovisioned users, 7 and 8. -/
def demoStore : Store := ⟨[demoUser 7 "Alice", demoUser 8 "bob"]⟩

/-- A table in which user 7 is unprovisioned and the two ports of the allocator are taken
by users 1 and 2. -/
def fullStore : Store :=
  ⟨[{ demoUser 1 "carol" with ServicePort := 10000, ServiceId := "x" },
    { demoUser 2 "dave" with ServicePort := 10001, ServiceId := "y" },
    demoUser 7 "Alice"]⟩

/-- A create-service request of user 7. -/
def demoReq1 : Request := ⟨7, "aes-256-cfb", "SS"⟩

/-- A second request of user 7, for another type and method. -/
def demoReq2 : Request := ⟨7, "chacha20", "SSR"⟩

/-- A schedule on which both requests read the record, then the first one runs to its
answer, then the second one does. -/
def demoSchedule : List Bool :=
  [true, false, true, true, true, true, false, false, false, false]

/-! ## The method catalog -/

theorem serverMethodsMap_get (t : String) :
    serverMethodsMap.get? t =
      if t = "SSR" then some (methodSet ssrMethods)
      else if t = "SS" then some (methodSet ssMethods) else Option.none := by
  by_cases h1 : t = "SSR"
  · subst h1; rfl
  · by_cases h2 : t = "SS"
    · subst h2; rfl
    · have e1 : ("SSR" == t) = false := by simpa using fun h => h1 h.symm
      have e2 : ("SS" == t) = false := by simpa using fun h => h2 h.symm
      simp [serverMethodsMap, GoMap.get?, GoMap.set, GoMap.empty, List.find?, e1, e2, h1, h2]

theorem GoMap.get?_set {V : Type} (m : GoMap V) (k k2 : String) (v : V) :
    (m.set k v).get? k2 = if k = k2 then some v else m.get? k2 := by
  by_cases h : k = k2
  · subst h; simp [GoMap.get?, GoMap.set]
  · have e : (k == k2) = false := by simpa using h
    simp only [GoMap.get?, GoMap.set, List.find?, e, h, if_false, List.find?_filter]
    congr 2
    funext kv
    by_cases h3 : kv.1 = k2
    · subst h3
      have : (kv.1 != k) = true := by simpa using fun h4 => h h4.symm
      simp [this]
    · simp [h3]

theorem foldl_set_getBool (methods : List String) (m0 : GoMap Bool) (m : String) :
    (methods.foldl (fun acc method => acc.set method true) m0).getBool m
      = (decide (m ∈ methods) || m0.getBool m) := by
  induction methods generalizing m0 with
  | nil => simp
  | cons a rest ih =>
    rw [List.foldl_cons, ih]
    by_cases h : a = m
    · subst h; simp [GoMap.getBool, GoMap.get?_set]
    · have h2 : ¬ m = a := fun e => h e.symm
      simp [GoMap.getBool, GoMap.get?_set, h, h2]

theorem methodSet_getBool (methods : List String) (m : String) :
    (methodSet methods).getBool m = decide (m ∈ methods) := by
  unfold methodSet
  rw [foldl_set_getBool]
  simp [GoMap.getBool, GoMap.get?, GoMap.empty]

/-- The catalog lookup of the handler succeeds exactly on the permitted pairs. -/
theorem permitted_iff (serverType method : String) :
    Permitted serverType method ↔
      ∃ methodMap, serverMethodsMap.get? serverType = some methodMap
        ∧ methodMap.getBool method = true := by
  rw [serverMethodsMap_get]
  unfold Permitted
  by_cases h1 : serverType = "SSR"
  · subst h1; simp [methodSet_getBool]
  · by_cases h2 : serverType = "SS"
    · subst h2; simp [methodSet_getBool]
    · simp [h1, h2]

/-! ## CreateServiceHandler: the outcome on each path -/

/-- The outcome for a request that is not permitted. -/
theorem handler_not_permitted {W : Type} (env : Env W) (w : W)
    (userID : Int) (method serverType : String)
    (hBad : ¬ Permitted serverType method) :
    CreateServiceHandler env w userID method serverType
      = ⟨StatusOK,
          ⟨false,
            if serverType = "SS" ∨ serverType = "SSR" then "加密方法配置错误!"
            else "服务类型配置错误!",
            .none⟩,
          [], [], w⟩ := by
  unfold Permitted at hBad
  unfold CreateServiceHandler
  rw [serverMethodsMap_get]
  by_cases h1 : serverType = "SSR"
  · subst h1
    have hm : method ∉ ssrMethods := fun hm => hBad (Or.inr ⟨rfl, hm⟩)
    simp [methodSet_getBool, hm]
  · by_cases h2 : serverType = "SS"
    · subst h2
      have hm : method ∉ ssMethods := fun hm => hBad (Or.inl ⟨rfl, hm⟩)
      simp [methodSet_getBool, hm]
    · simp [h1, h2]

/-- The outcome when the record read has a non-empty service_id. -/
theorem handler_guard {W : Type} (env : Env W) (w w1 : W)
    (userID : Int) (method serverType : String) (got : Option User)
    (hValid : Permitted serverType method)
    (hGet : env.dbGet w userID = (got, w1))
    (hHas : (got.getD User.zero).ServiceId ≠ "") :
    CreateServiceHandler env w userID method serverType
      = ⟨StatusOK, ⟨false, "服务已创建!", .none⟩, [Call.dbGet userID], [], w1⟩ := by
  obtain ⟨mm, h1, h2⟩ := (permitted_iff _ _).1 hValid
  simp [CreateServiceHandler, h1, h2, hGet, hHas]

/-- The outcome when the allocator returns an error. -/
theorem handler_no_port {W : Type} (env : Env W) (w w1 w2 w3 : W)
    (userID : Int) (method serverType : String) (got : Option User)
    (usedPorts : List Int) (err : String)
    (hValid : Permitted serverType method)
    (hGet : env.dbGet w userID = (got, w1))
    (hFree : (got.getD User.zero).ServiceId = "")
    (hFind : env.dbFindPorts w1 = (usedPorts, w2))
    (hPort : env.GetAvailablePort w2 usedPorts = (.error err, w3)) :
    CreateServiceHandler env w userID method serverType
      = ⟨StatusOK, ⟨false, "创建服务失败,没有可用端口!", .none⟩,
          [Call.dbGet userID, Call.dbFindPorts, Call.getAvailablePort usedPorts], [], w3⟩ := by
  obtain ⟨mm, h1, h2⟩ := (permitted_iff _ _).1 hValid
  simp [CreateServiceHandler, h1, h2, hGet, hFree, hFind, hPort]

/-- The outcome when the runtime fails to create and start the container. -/
theorem handler_runtime_error {W : Type} (env : Env W) (w w1 w2 w3 w4 : W)
    (userID : Int) (method serverType : String) (got : Option User)
    (usedPorts : List Int) (port : Int) (err : String)
    (hValid : Permitted serverType method)
    (hGet : env.dbGet w userID = (got, w1))
    (hFree : (got.getD User.zero).ServiceId = "")
    (hFind : env.dbFindPorts w1 = (usedPorts, w2))
    (hPort : env.GetAvailablePort w2 usedPorts = (.ok port, w3))
    (hStart : env.CreateAndStartContainer w3 serverType
        (stringsToLower env.unicodeToLower (got.getD User.zero).Username) method "" port
          = (.error err, w4)) :
    CreateServiceHandler env w userID method serverType
      = ⟨StatusOK, ⟨false, "创建服务失败!", .none⟩,
          [Call.dbGet userID, Call.dbFindPorts, Call.getAvailablePort usedPorts,
            Call.createAndStartContainer serverType
              (stringsToLower env.unicodeToLower (got.getD User.zero).Username) method "" port],
          ["Create ss service error: " ++ err], w4⟩ := by
  obtain ⟨mm, h1, h2⟩ := (permitted_iff _ _).1 hValid
  simp [CreateServiceHandler, h1, h2, hGet, hFree, hFind, hPort, hStart]

/-- The outcome when the update returns an error or affects zero rows. -/
theorem handler_update_failed {W : Type} (env : Env W)
    (w w1 w2 w3 w4 w5 w6 : W)
    (userID : Int) (method serverType : String) (got : Option User)
    (usedPorts : List Int) (port : Int) (result : ServiceResult)
    (affected : Int) (uerr rerr : Option String)
    (hValid : Permitted serverType method)
    (hGet : env.dbGet w userID = (got, w1))
    (hFree : (got.getD User.zero).ServiceId = "")
    (hFind : env.dbFindPorts w1 = (usedPorts, w2))
    (hPort : env.GetAvailablePort w2 usedPorts = (.ok port, w3))
    (hStart : env.CreateAndStartContainer w3 serverType
        (stringsToLower env.unicodeToLower (got.getD User.zero).Username) method "" port
          = (.ok result, w4))
    (hUpdate : env.dbUpdate w4 userID updateCols
        ((got.getD User.zero).assignService result method serverType)
          = ((affected, uerr), w5))
    (hFail : affected = 0 ∨ uerr ≠ Option.none)
    (hRemove : env.RemoveContainer w5 result.ID = (rerr, w6)) :
    CreateServiceHandler env w userID method serverType
      = ⟨StatusOK, ⟨false, "更新用户信息失败!", .none⟩,
          [Call.dbGet userID, Call.dbFindPorts, Call.getAvailablePort usedPorts,
            Call.createAndStartContainer serverType
              (stringsToLower env.unicodeToLower (got.getD User.zero).Username) method "" port,
            Call.dbUpdate userID updateCols
              ((got.getD User.zero).assignService result method serverType),
            Call.removeContainer result.ID],
          updateErrorLog uerr,
          w6⟩ := by
  obtain ⟨mm, h1, h2⟩ := (permitted_iff _ _).1 hValid
  have hcond : (affected == 0 || uerr.isSome) = true := by
    rcases hFail with h | h
    · simp [h]
    · cases uerr with
      | none => exact absurd rfl h
      | some e => simp
  simp only [CreateServiceHandler, h1, h2, hGet, hFree, hFind, hPort, hStart, hUpdate,
    hRemove, hcond]
  simp

/-- The outcome when the update affects a row without error. -/
theorem handler_success {W : Type} (env : Env W)
    (w w1 w2 w3 w4 w5 : W)
    (userID : Int) (method serverType : String) (got : Option User)
    (usedPorts : List Int) (port : Int) (result : ServiceResult)
    (affected : Int)
    (hValid : Permitted serverType method)
    (hGet : env.dbGet w userID = (got, w1))
    (hFree : (got.getD User.zero).ServiceId = "")
    (hFind : env.dbFindPorts w1 = (usedPorts, w2))
    (hPort : env.GetAvailablePort w2 usedPorts = (.ok port, w3))
    (hStart : env.CreateAndStartContainer w3 serverType
        (stringsToLower env.unicodeToLower (got.getD User.zero).Username) method "" port
          = (.ok result, w4))
    (hUpdate : env.dbUpdate w4 userID updateCols
        ((got.getD User.zero).assignService result method serverType)
          = ((affected, Option.none), w5))
    (hRows : affected ≠ 0) :
    CreateServiceHandler env w userID method serverType
      = ⟨StatusOK,
          ⟨true, "服务创建成功!",
            .service (result.forDisplay
              ((got.getD User.zero).assignService result method serverType) env.ssHost)⟩,
          [Call.dbGet userID, Call.dbFindPorts, Call.getAvailablePort usedPorts,
            Call.createAndStartContainer serverType
              (stringsToLower env.unicodeToLower (got.getD User.zero).Username) method "" port,
            Call.dbUpdate userID updateCols
              ((got.getD User.zero).assignService result method serverType)],
          [], w5⟩ := by
  obtain ⟨mm, h1, h2⟩ := (permitted_iff _ _).1 hValid
  simp only [CreateServiceHandler, h1, h2, hGet, hFree, hFind, hPort, hStart, hUpdate]
  simp [hRows]

/-! ## The relational store -/

theorem setCols_Id (cols : List String) (bean row : User) :
    (setCols cols bean row).Id = row.Id := rfl

theorem setCols_updateCols_ServiceId (bean row : User) :
    (setCols updateCols bean row).ServiceId = bean.ServiceId := by
  simp [setCols, updateCols]

/-- A select by key after an update by the same key reads the updated row. -/
theorem Store.get_update (st : Store) (id : Int) (cols : List String) (bean : User) :
    (st.update id cols bean).2.get id = (st.get id).map (setCols cols bean) := by
  unfold Store.get Store.update
  simp only [List.find?_map]
  have hf : ((fun row : User => row.Id == id) ∘
      fun row : User => if (row.Id == id) = true then setCols cols bean row else row)
      = fun row : User => row.Id == id := by
    funext row
    by_cases h : row.Id = id
    · simp [h, setCols_Id]
    · simp [h]
  rw [hf]
  cases hfind : st.rows.find? (fun row => row.Id == id) with
  | none => simp
  | some row =>
    have hid : row.Id = id := by simpa using List.find?_some hfind
    simp [hid]

/-- An update by key affects a row exactly when a row has that key. -/
theorem Store.update_affected (st : Store) (id : Int) (cols : List String) (bean : User) :
    (st.update id cols bean).1 ≠ 0 ↔ (st.get id).isSome = true := by
  unfold Store.get Store.update
  simp only [ne_eq, Int.natCast_eq_zero, List.length_eq_zero, List.find?_isSome]
  rw [List.filter_eq_nil_iff]
  simp

/-- An update by a key no row has affects zero rows and leaves the table as it was. -/
theorem Store.update_missing (st : Store) (id : Int) (cols : List String) (bean : User)
    (h : st.get id = Option.none) : st.update id cols bean = (0, st) := by
  unfold Store.get at h
  rw [List.find?_eq_none] at h
  unfold Store.update
  have h1 : st.rows.filter (fun row => row.Id == id) = [] := by
    rw [List.filter_eq_nil_iff]; exact h
  have h2 : st.rows.map (fun row => if (row.Id == id) = true then setCols cols bean row else row)
      = st.rows := by
    conv_rhs => rw [← List.map_id st.rows]
    apply List.map_congr_left
    intro row hrow
    have := h row hrow
    simp [this]
  rw [h1, h2]
  rfl

/-- A successful create-service response on the relational store: the record existed
with an empty service_id, and the table has been updated with the container returned. -/
theorem createService_store_success_inv {R : Type} (env : Env R) (st : Store) (r : R)
    (userID : Int) (method serverType : String)
    (h : (CreateServiceHandler (withStore env) (st, r) userID method serverType).resp.Success
      = true) :
    ∃ user result,
      st.get userID = some user ∧ user.ServiceId = "" ∧
      (CreateServiceHandler (withStore env) (st, r) userID method serverType).resp.Data
        = .service (result.forDisplay (user.assignService result method serverType) env.ssHost) ∧
      (CreateServiceHandler (withStore env) (st, r) userID method serverType).world.1
        = (st.update userID updateCols (user.assignService result method serverType)).2 := by
  by_cases hValid : Permitted serverType method
  swap
  · rw [handler_not_permitted _ _ _ _ _ hValid] at h
    simp at h
  by_cases hFree : ((st.get userID).getD User.zero).ServiceId = ""
  swap
  · rw [handler_guard (withStore env) (st, r) (st, r) userID method serverType (st.get userID)
      hValid rfl hFree] at h
    simp at h
  cases hPort : (env.GetAvailablePort r st.findPorts).1 with
  | error err =>
    rw [handler_no_port (withStore env) (st, r) (st, r) (st, r)
      (st, (env.GetAvailablePort r st.findPorts).2) userID method serverType (st.get userID)
      st.findPorts err hValid rfl hFree rfl (by simp [withStore, hPort])] at h
    simp at h
  | ok port =>
    cases hStart : (env.CreateAndStartContainer (env.GetAvailablePort r st.findPorts).2 serverType
        (stringsToLower env.unicodeToLower ((st.get userID).getD User.zero).Username)
        method "" port).1 with
    | error err =>
      rw [handler_runtime_error (withStore env) (st, r) (st, r) (st, r)
        (st, (env.GetAvailablePort r st.findPorts).2) _ userID method serverType (st.get userID)
        st.findPorts port err hValid rfl hFree rfl (by simp [withStore, hPort])
        (by simp only [withStore, hStart]; rfl)] at h
      simp at h
    | ok result =>
      have hS : (withStore env).CreateAndStartContainer
          (st, (env.GetAvailablePort r st.findPorts).2) serverType
          (stringsToLower (withStore env).unicodeToLower ((st.get userID).getD User.zero).Username)
          method "" port
          = (.ok result, (st, (env.CreateAndStartContainer (env.GetAvailablePort r st.findPorts).2
              serverType
              (stringsToLower env.unicodeToLower ((st.get userID).getD User.zero).Username)
              method "" port).2)) := by
        simp only [withStore, hStart]
      have hP : (withStore env).GetAvailablePort (st, r) st.findPorts
          = (.ok port, (st, (env.GetAvailablePort r st.findPorts).2)) := by
        simp [withStore, hPort]
      by_cases hRows : (st.update userID updateCols
          (((st.get userID).getD User.zero).assignService result method serverType)).1 = 0
      · rw [handler_update_failed (withStore env) (st, r) (st, r) (st, r) _ _ _ _ userID method
          serverType (st.get userID) st.findPorts port result _ Option.none _ hValid rfl hFree rfl
          hP hS rfl (Or.inl hRows) rfl] at h
        simp at h
      · have hsome := (Store.update_affected _ _ _ _).1 hRows
        obtain ⟨user, huser⟩ := Option.isSome_iff_exists.1 hsome
        have hgd : (st.get userID).getD User.zero = user := by simp [huser]
        have key := handler_success (withStore env) (st, r) (st, r) (st, r) _ _ _ userID method
          serverType (st.get userID) st.findPorts port result _ hValid rfl hFree rfl
          hP hS rfl hRows
        refine ⟨user, result, huser, by rw [← hgd]; exact hFree, ?_, ?_⟩
        · rw [key]
          simp [hgd, withStore]
        · rw [key]
          simp [hgd, withStore]

/-- An unsuccessful create-service response on the relational store leaves the table as it
was. -/
theorem createService_store_failure_unchanged {R : Type} (env : Env R) (st : Store) (r : R)
    (userID : Int) (method serverType : String)
    (h : (CreateServiceHandler (withStore env) (st, r) userID method serverType).resp.Success
      = false) :
    (CreateServiceHandler (withStore env) (st, r) userID method serverType).world.1 = st := by
  by_cases hValid : Permitted serverType method
  swap
  · rw [handler_not_permitted _ _ _ _ _ hValid]
  by_cases hFree : ((st.get userID).getD User.zero).ServiceId = ""
  swap
  · rw [handler_guard (withStore env) (st, r) (st, r) userID method serverType (st.get userID)
      hValid rfl hFree]
  cases hPort : (env.GetAvailablePort r st.findPorts).1 with
  | error err =>
    rw [handler_no_port (withStore env) (st, r) (st, r) (st, r)
      (st, (env.GetAvailablePort r st.findPorts).2) userID method serverType (st.get userID)
      st.findPorts err hValid rfl hFree rfl (Prod.ext hPort rfl)]
  | ok port =>
    have hP : (withStore env).GetAvailablePort (st, r) st.findPorts
        = (.ok port, (st, (env.GetAvailablePort r st.findPorts).2)) := Prod.ext hPort rfl
    cases hStart : (env.CreateAndStartContainer (env.GetAvailablePort r st.findPorts).2 serverType
        (stringsToLower env.unicodeToLower ((st.get userID).getD User.zero).Username)
        method "" port).1 with
    | error err =>
      rw [handler_runtime_error (withStore env) (st, r) (st, r) (st, r) _
        (st, (env.CreateAndStartContainer (env.GetAvailablePort r st.findPorts).2 serverType
          (stringsToLower env.unicodeToLower ((st.get userID).getD User.zero).Username)
          method "" port).2)
        userID method serverType (st.get userID)
        st.findPorts port err hValid rfl hFree rfl hP (Prod.ext hStart rfl)]
    | ok result =>
      have hS : (withStore env).CreateAndStartContainer
          (st, (env.GetAvailablePort r st.findPorts).2) serverType
          (stringsToLower (withStore env).unicodeToLower ((st.get userID).getD User.zero).Username)
          method "" port
          = (.ok result, (st, (env.CreateAndStartContainer (env.GetAvailablePort r st.findPorts).2
              serverType
              (stringsToLower env.unicodeToLower ((st.get userID).getD User.zero).Username)
              method "" port).2)) := Prod.ext hStart rfl
      by_cases hRows : (st.update userID updateCols
          (((st.get userID).getD User.zero).assignService result method serverType)).1 = 0
      · rw [handler_update_failed (withStore env) (st, r) (st, r) (st, r) _ _ _ _ userID method
          serverType (st.get userID) st.findPorts port result _ Option.none _ hValid rfl hFree rfl
          hP hS rfl (Or.inl hRows) rfl]
        have hnone : st.get userID = Option.none := by
          by_contra hne
          have hsome : (st.get userID).isSome = true := by
            cases hg : st.get userID with
            | none => exact absurd hg hne
            | some u => rfl
          exact (Store.update_affected st userID updateCols _).2 hsome hRows
        show (st.update userID updateCols _).2 = st
        rw [Store.update_missing st userID _ _ hnone]
      · rw [handler_success (withStore env) (st, r) (st, r) (st, r) _ _ _ userID method
          serverType (st.get userID) st.findPorts port result _ hValid rfl hFree rfl
          hP hS rfl hRows] at h
        simp at h

/-! ## CreateServiceHandler: the claims -/

/-- C1. A create-service request whose server-type is not SS or SSR, or whose method is
not in the permitted list of its type, gets an unsuccessful response (the type message
for an unknown type, the method message otherwise) and the handler makes no collaborator
call at all: no runtime call, no read, no port listing, no update; the world is left as
it was. -/
theorem createService_bad_configuration_no_calls {W : Type} (env : Env W) (w : W)
    (userID : Int) (method serverType : String)
    (hBad : ¬ Permitted serverType method) :
    (CreateServiceHandler env w userID method serverType).resp
      = ⟨false,
          if serverType = "SS" ∨ serverType = "SSR" then "加密方法配置错误!"
          else "服务类型配置错误!",
          .none⟩
    ∧ (CreateServiceHandler env w userID method serverType).calls = []
    ∧ (CreateServiceHandler env w userID method serverType).calls.filter Call.isRuntime = []
    ∧ (CreateServiceHandler env w userID method serverType).calls.filter Call.isStore = []
    ∧ (CreateServiceHandler env w userID method serverType).world = w := by
  rw [handler_not_permitted env w userID method serverType hBad]
  simp

/-- The method aes-256-ctr is an SSR method: asked for type SS it is refused without a call. -/
theorem createService_bad_configuration_no_calls_witness :
    ¬ Permitted "SS" "aes-256-ctr"
    ∧ (CreateServiceHandler (withStore demoEnv) (demoStore, 0) 7 "aes-256-ctr" "SS").resp
      = ⟨false, "加密方法配置错误!", .none⟩
    ∧ (CreateServiceHandler (withStore demoEnv) (demoStore, 0) 7 "aes-256-ctr" "SS").calls = [] :=
  ⟨by decide,
    (createService_bad_configuration_no_calls (withStore demoEnv) (demoStore, 0) 7
      "aes-256-ctr" "SS" (by decide)).1,
    (createService_bad_configuration_no_calls (withStore demoEnv) (demoStore, 0) 7
      "aes-256-ctr" "SS" (by decide)).2.1⟩

/-- C2. When a permitted request reaches the runtime, the runtime call succeeds with
container id C, and the update that follows returns an error or affects zero rows, the
handler issues exactly one RemoveContainer call, with argument C, as its last call, and
answers with the persistence-failure message, whatever the removal call returns. -/
theorem createService_update_failure_compensates {W : Type} (env : Env W)
    (w w1 w2 w3 w4 w5 w6 : W)
    (userID : Int) (method serverType : String) (got : Option User)
    (usedPorts : List Int) (port : Int) (result : ServiceResult)
    (affected : Int) (uerr rerr : Option String)
    (hValid : Permitted serverType method)
    (hGet : env.dbGet w userID = (got, w1))
    (hFree : (got.getD User.zero).ServiceId = "")
    (hFind : env.dbFindPorts w1 = (usedPorts, w2))
    (hPort : env.GetAvailablePort w2 usedPorts = (.ok port, w3))
    (hStart : env.CreateAndStartContainer w3 serverType
        (stringsToLower env.unicodeToLower (got.getD User.zero).Username) method "" port
          = (.ok result, w4))
    (hUpdate : env.dbUpdate w4 userID updateCols
        ((got.getD User.zero).assignService result method serverType)
          = ((affected, uerr), w5))
    (hFail : affected = 0 ∨ uerr ≠ Option.none)
    (hRemove : env.RemoveContainer w5 result.ID = (rerr, w6)) :
    (CreateServiceHandler env w userID method serverType).resp
      = ⟨false, "更新用户信息失败!", .none⟩
    ∧ (CreateServiceHandler env w userID method serverType).calls
      = [Call.dbGet userID, Call.dbFindPorts, Call.getAvailablePort usedPorts,
          Call.createAndStartContainer serverType
            (stringsToLower env.unicodeToLower (got.getD User.zero).Username) method "" port,
          Call.dbUpdate userID updateCols
            ((got.getD User.zero).assignService result method serverType),
          Call.removeContainer result.ID]
    ∧ (CreateServiceHandler env w userID method serverType).calls.filter Call.isRemove
      = [Call.removeContainer result.ID]
    ∧ (CreateServiceHandler env w userID method serverType).world = w6 := by
  rw [handler_update_failed env w w1 w2 w3 w4 w5 w6 userID method serverType got usedPorts port
    result affected uerr rerr hValid hGet hFree hFind hPort hStart hUpdate hFail hRemove]
  simp [Call.isRemove]

/-- With a persistence engine that is down, the container c started for user 7 is removed. -/
theorem createService_update_failure_compensates_witness :
    (CreateServiceHandler demoEnv 0 7 "chacha20" "SSR").resp
      = ⟨false, "更新用户信息失败!", .none⟩
    ∧ (CreateServiceHandler demoEnv 0 7 "chacha20" "SSR").calls.filter Call.isRemove
      = [Call.removeContainer "c"] :=
  have h := createService_update_failure_compensates demoEnv 0 0 0 0 1 1 1 7 "chacha20" "SSR"
    Option.none [] 10000 ⟨"c", "", 10000, "secret", 0⟩ 0 (some "connection refused") Option.none
    (by decide) rfl rfl rfl rfl rfl rfl (Or.inl rfl) rfl
  ⟨h.1, h.2.2.1⟩

/-- C3, as the code has it. A permitted request by a user whose stored record has a
non-empty service_id gets the already-created response, and the only collaborator call is
the read of the record: no port listing or allocation, no runtime call, no update. In
particular, on the relational store, a request of that user made after an earlier one
that succeeded is answered this way when the container id returned to the earlier one is
non-empty: the guard tests the stored service_id and nothing else. -/
theorem createService_already_provisioned {W : Type} (env : Env W) (w w1 : W)
    (userID : Int) (method serverType : String) (user : User)
    (hValid : Permitted serverType method)
    (hGet : env.dbGet w userID = (some user, w1))
    (hHas : user.ServiceId ≠ "") :
    CreateServiceHandler env w userID method serverType
      = ⟨StatusOK, ⟨false, "服务已创建!", .none⟩, [Call.dbGet userID], [], w1⟩
    ∧ ∀ {R : Type} (base : Env R) (st : Store) (r : R) (method0 serverType0 : String)
        (res : ServiceResult),
        (CreateServiceHandler (withStore base) (st, r) userID method0 serverType0).resp
          = ⟨true, "服务创建成功!", .service res⟩ →
        res.ID ≠ "" →
        CreateServiceHandler (withStore base)
            (CreateServiceHandler (withStore base) (st, r) userID method0 serverType0).world
            userID method serverType
          = ⟨StatusOK, ⟨false, "服务已创建!", .none⟩, [Call.dbGet userID], [],
              (CreateServiceHandler (withStore base) (st, r) userID method0 serverType0).world⟩ := by
  refine ⟨handler_guard env w w1 userID method serverType (some user) hValid hGet hHas, ?_⟩
  intro R base st r method0 serverType0 res hOk hId
  have hS : (CreateServiceHandler (withStore base) (st, r) userID method0 serverType0).resp.Success
      = true := by rw [hOk]
  obtain ⟨u, result, hu, -, hData, hWorld⟩ :=
    createService_store_success_inv base st r userID method0 serverType0 hS
  rw [hOk] at hData
  have hres : res = result.forDisplay (u.assignService result method0 serverType0) base.ssHost := by
    simpa using hData
  have hid : result.ID ≠ "" := by
    rw [hres] at hId; simpa [ServiceResult.forDisplay] using hId
  have hget2 : (CreateServiceHandler (withStore base) (st, r) userID method0 serverType0).world.1.get
      userID = some (setCols updateCols (u.assignService result method0 serverType0) u) := by
    rw [hWorld, Store.get_update, hu]; rfl
  refine handler_guard (withStore base) _ _ userID method serverType
    (some (setCols updateCols (u.assignService result method0 serverType0) u)) hValid ?_ ?_
  · show (_, _) = (_, _)
    rw [hget2]
  · simp [setCols_updateCols_ServiceId, User.assignService, hid]

/-- User 1 of the full table is refused, and so is user 7 once a first request succeeded. -/
theorem createService_already_provisioned_witness :
    CreateServiceHandler (withStore demoEnv) (fullStore, 2) 1 "aes-128-gcm" "SS"
      = ⟨StatusOK, ⟨false, "服务已创建!", .none⟩, [Call.dbGet 1], [], (fullStore, 2)⟩
    ∧ (CreateServiceHandler (withStore demoEnv)
        (CreateServiceHandler (withStore demoEnv) (demoStore, 0) 7 "aes-256-cfb" "SS").world
        7 "aes-128-gcm" "SS").resp = ⟨false, "服务已创建!", .none⟩ :=
  have h := createService_already_provisioned (withStore demoEnv) (fullStore, 2) (fullStore, 2) 1
    "aes-128-gcm" "SS" { demoUser 1 "carol" with ServicePort := 10000, ServiceId := "x" }
    (by decide) rfl (by decide)
  have h7 := createService_already_provisioned (withStore demoEnv)
    (CreateServiceHandler (withStore demoEnv) (demoStore, 0) 7 "aes-256-cfb" "SS").world
    (CreateServiceHandler (withStore demoEnv) (demoStore, 0) 7 "aes-256-cfb" "SS").world 7
    "aes-128-gcm" "SS"
    { demoUser 7 "Alice" with
      Status := 1, ServicePort := 10000, ServicePwd := "secret", ServiceId := "c",
      ServiceMethod := "aes-256-cfb", ServiceType := "SS" }
    (by decide) rfl (by decide)
  ⟨h.1, by
    rw [h7.2 demoEnv demoStore 0 "aes-256-cfb" "SS" ⟨"c", "relay.example", 10000, "secret", 100⟩
      rfl (by decide)]⟩

/-- C3, as stated, fails. With a runtime that reports its containers under the empty id, the
first request of user 7 succeeds and stores the empty service_id; the second request of
user 7 is then not answered already-created: it passes the guard, is given port 10001,
starts a second container and reports success. -/
theorem sequential_counterexample :
    ¬ SequentialClaim blankIdEnv demoStore 0 7 "aes-256-cfb" "SS" "aes-256-cfb" "SS" := by
  intro hClaim
  have hResp := (hClaim (by decide) rfl).1
  have hSecond : (CreateServiceHandler (withStore blankIdEnv)
      (CreateServiceHandler (withStore blankIdEnv) (demoStore, 0) 7 "aes-256-cfb" "SS").world
      7 "aes-256-cfb" "SS").resp
      = ⟨true, "服务创建成功!", .service ⟨"", "relay.example", 10001, "secret", 100⟩⟩ := rfl
  rw [hSecond] at hResp
  simp at hResp

/-- C4. On the fully successful path (permitted request, record with empty service_id, a
port allocated, the runtime call succeeds, the update affects a non-zero number of rows
without error) the handler makes exactly one container-create call and no
container-remove call, and exactly one update: for the requesting user id, of the six
columns status, service_port, service_pwd, service_id, service_method and service_type,
carrying status 1, the container id, port and password returned by the runtime and the
requested method and type. The successful response carries the result of the runtime
with PackageLimit set to the quota limit of the user and Host set to the deployment
host. -/
theorem createService_success {W : Type} (env : Env W)
    (w w1 w2 w3 w4 w5 : W)
    (userID : Int) (method serverType : String) (got : Option User)
    (usedPorts : List Int) (port : Int) (result : ServiceResult)
    (affected : Int)
    (hValid : Permitted serverType method)
    (hGet : env.dbGet w userID = (got, w1))
    (hFree : (got.getD User.zero).ServiceId = "")
    (hFind : env.dbFindPorts w1 = (usedPorts, w2))
    (hPort : env.GetAvailablePort w2 usedPorts = (.ok port, w3))
    (hStart : env.CreateAndStartContainer w3 serverType
        (stringsToLower env.unicodeToLower (got.getD User.zero).Username) method "" port
          = (.ok result, w4))
    (hUpdate : env.dbUpdate w4 userID updateCols
        ((got.getD User.zero).assignService result method serverType)
          = ((affected, Option.none), w5))
    (hRows : affected ≠ 0) :
    CreateServiceHandler env w userID method serverType
      = ⟨StatusOK,
          ⟨true, "服务创建成功!",
            .service
              { ID := result.ID, Port := result.Port, Password := result.Password,
                PackageLimit := (got.getD User.zero).PackageLimit, Host := env.ssHost }⟩,
          [Call.dbGet userID, Call.dbFindPorts, Call.getAvailablePort usedPorts,
            Call.createAndStartContainer serverType
              (stringsToLower env.unicodeToLower (got.getD User.zero).Username) method "" port,
            Call.dbUpdate userID
              ["status", "service_port", "service_pwd", "service_id", "service_method",
                "service_type"]
              { (got.getD User.zero) with
                Status := 1, ServiceId := result.ID, ServicePort := result.Port,
                ServicePwd := result.Password, ServiceMethod := method,
                ServiceType := serverType }],
          [], w5⟩
    ∧ ((CreateServiceHandler env w userID method serverType).calls.filter Call.isCreate).length = 1
    ∧ ((CreateServiceHandler env w userID method serverType).calls.filter Call.isUpdate).length = 1
    ∧ (CreateServiceHandler env w userID method serverType).calls.filter Call.isRemove = [] := by
  rw [handler_success env w w1 w2 w3 w4 w5 userID method serverType got usedPorts port
    result affected hValid hGet hFree hFind hPort hStart hUpdate hRows]
  simp [Call.isRemove, Call.isUpdate, Call.isCreate, User.assignService, updateCols,
    ServiceResult.forDisplay]

/-- User 7 of the demo table gets container c on port 10000. -/
theorem createService_success_witness :
    (CreateServiceHandler (withStore demoEnv) (demoStore, 0) 7 "aes-256-cfb" "SS").resp
      = ⟨true, "服务创建成功!", .service ⟨"c", "relay.example", 10000, "secret", 100⟩⟩
    ∧ (CreateServiceHandler (withStore demoEnv) (demoStore, 0) 7 "aes-256-cfb" "SS").calls.filter
        Call.isRemove = [] :=
  have h := createService_success (withStore demoEnv) (demoStore, 0) (demoStore, 0)
    (demoStore, 0) (demoStore, 0) (demoStore, 1)
    ((demoStore.update 7 updateCols
      ((demoUser 7 "Alice").assignService ⟨"c", "", 10000, "secret", 0⟩ "aes-256-cfb" "SS")).2, 1)
    7 "aes-256-cfb" "SS" (some (demoUser 7 "Alice")) [0, 0] 10000 ⟨"c", "", 10000, "secret", 0⟩ 1
    (by decide) rfl rfl rfl rfl rfl rfl (by decide)
  ⟨congrArg Outcome.resp h.1, h.2.2.2⟩

/-- C5. A permitted request by an unprovisioned user for which a port is allocated but the
create-and-start call of the runtime returns an error gets the provisioning-failure
response; the calls are the read, the port listing, the allocation and the failed
creation: no update of the user record and no container removal; and on the relational
store a request answered this way leaves the table as it was. -/
theorem createService_runtime_failure {W : Type} (env : Env W) (w w1 w2 w3 w4 : W)
    (userID : Int) (method serverType : String) (got : Option User)
    (usedPorts : List Int) (port : Int) (err : String)
    (hValid : Permitted serverType method)
    (hGet : env.dbGet w userID = (got, w1))
    (hFree : (got.getD User.zero).ServiceId = "")
    (hFind : env.dbFindPorts w1 = (usedPorts, w2))
    (hPort : env.GetAvailablePort w2 usedPorts = (.ok port, w3))
    (hStart : env.CreateAndStartContainer w3 serverType
        (stringsToLower env.unicodeToLower (got.getD User.zero).Username) method "" port
          = (.error err, w4)) :
    CreateServiceHandler env w userID method serverType
      = ⟨StatusOK, ⟨false, "创建服务失败!", .none⟩,
          [Call.dbGet userID, Call.dbFindPorts, Call.getAvailablePort usedPorts,
            Call.createAndStartContainer serverType
              (stringsToLower env.unicodeToLower (got.getD User.zero).Username) method "" port],
          ["Create ss service error: " ++ err], w4⟩
    ∧ (CreateServiceHandler env w userID method serverType).calls.filter Call.isUpdate = []
    ∧ (CreateServiceHandler env w userID method serverType).calls.filter Call.isRemove = []
    ∧ ∀ {R : Type} (base : Env R) (st : Store) (r : R),
        (CreateServiceHandler (withStore base) (st, r) userID method serverType).resp
          = ⟨false, "创建服务失败!", .none⟩ →
        (CreateServiceHandler (withStore base) (st, r) userID method serverType).world.1 = st := by
  rw [handler_runtime_error env w w1 w2 w3 w4 userID method serverType got usedPorts port err
    hValid hGet hFree hFind hPort hStart]
  refine ⟨rfl, by simp [Call.isUpdate], by simp [Call.isRemove], ?_⟩
  intro R base st r hResp
  exact createService_store_failure_unchanged base st r userID method serverType (by rw [hResp])

/-- With a runtime at capacity, the request of user 8 fails and the table is untouched. -/
theorem createService_runtime_failure_witness :
    CreateServiceHandler (withStore demoEnv) (demoStore, 3) 8 "aes-256-gcm" "SS"
      = ⟨StatusOK, ⟨false, "创建服务失败!", .none⟩,
          [Call.dbGet 8, Call.dbFindPorts, Call.getAvailablePort [0, 0],
            Call.createAndStartContainer "SS" "bob" "aes-256-gcm" "" 10000],
          ["Create ss service error: no capacity"], (demoStore, 3)⟩ :=
  (createService_runtime_failure (withStore demoEnv) (demoStore, 3) (demoStore, 3)
    (demoStore, 3) (demoStore, 3) (demoStore, 3) 8 "aes-256-gcm" "SS" (some (demoUser 8 "bob"))
    [0, 0] 10000 "no capacity" (by decide) rfl rfl rfl rfl rfl).1

/-- C6. A permitted request by an unprovisioned user for which the allocator reports no
available port, for the used-port list read from the store, gets the no-available-port
response; the calls are the read, the port listing and the allocation: no runtime call
(neither create nor remove) and no update. -/
theorem createService_no_available_port {W : Type} (env : Env W) (w w1 w2 w3 : W)
    (userID : Int) (method serverType : String) (got : Option User)
    (usedPorts : List Int) (err : String)
    (hValid : Permitted serverType method)
    (hGet : env.dbGet w userID = (got, w1))
    (hFree : (got.getD User.zero).ServiceId = "")
    (hFind : env.dbFindPorts w1 = (usedPorts, w2))
    (hPort : env.GetAvailablePort w2 usedPorts = (.error err, w3)) :
    CreateServiceHandler env w userID method serverType
      = ⟨StatusOK, ⟨false, "创建服务失败,没有可用端口!", .none⟩,
          [Call.dbGet userID, Call.dbFindPorts, Call.getAvailablePort usedPorts], [], w3⟩
    ∧ (CreateServiceHandler env w userID method serverType).calls.filter Call.isRuntime = []
    ∧ (CreateServiceHandler env w userID method serverType).calls.filter Call.isUpdate = [] := by
  rw [handler_no_port env w w1 w2 w3 userID method serverType got usedPorts err
    hValid hGet hFree hFind hPort]
  simp [Call.isRuntime, Call.isUpdate]

/-- With both ports of the allocator taken, the request of user 7 is refused a port. -/
theorem createService_no_available_port_witness :
    CreateServiceHandler (withStore demoEnv) (fullStore, 2) 7 "chacha20-ietf" "SSR"
      = ⟨StatusOK, ⟨false, "创建服务失败,没有可用端口!", .none⟩,
          [Call.dbGet 7, Call.dbFindPorts, Call.getAvailablePort [10000, 10001, 0]], [],
          (fullStore, 2)⟩ :=
  (createService_no_available_port (withStore demoEnv) (fullStore, 2) (fullStore, 2)
    (fullStore, 2) (fullStore, 2) 7 "chacha20-ietf" "SSR" (some (demoUser 7 "Alice"))
    [10000, 10001, 0] "no available port" (by decide) rfl rfl rfl rfl).1

/-- The lower-casing of the empty name is the empty name. -/
theorem stringsToLower_empty (lower : Char → Char) : stringsToLower lower "" = "" := rfl

/-- C10. The handler does not check that the user record exists. For a permitted request
of a user id with no row in the store, the missing row passes the already-provisioned
guard: the handler goes on to list the ports and to ask the allocator for one; when the
allocator returns a port, a container start is requested with the empty user name; and
when that start succeeds the update affects zero rows, the container is removed by
exactly one call and the persistence-failure response is returned, the table being left
as it was. -/
theorem createService_missing_user {R : Type} (env : Env R) (st : Store) (r : R)
    (userID : Int) (method serverType : String)
    (hValid : Permitted serverType method)
    (hNone : st.get userID = Option.none) :
    (CreateServiceHandler (withStore env) (st, r) userID method serverType).calls.take 3
      = [Call.dbGet userID, Call.dbFindPorts, Call.getAvailablePort st.findPorts]
    ∧ ∀ (port : Int) (r1 : R), env.GetAvailablePort r st.findPorts = (.ok port, r1) →
        (CreateServiceHandler (withStore env) (st, r) userID method serverType).calls.take 4
          = [Call.dbGet userID, Call.dbFindPorts, Call.getAvailablePort st.findPorts,
              Call.createAndStartContainer serverType "" method "" port]
        ∧ ∀ (result : ServiceResult) (r2 : R),
            env.CreateAndStartContainer r1 serverType "" method "" port = (.ok result, r2) →
            (withStore env).dbUpdate (st, r2) userID updateCols
                (User.zero.assignService result method serverType)
              = ((0, Option.none), (st, r2))
            ∧ CreateServiceHandler (withStore env) (st, r) userID method serverType
              = ⟨StatusOK, ⟨false, "更新用户信息失败!", .none⟩,
                  [Call.dbGet userID, Call.dbFindPorts, Call.getAvailablePort st.findPorts,
                    Call.createAndStartContainer serverType "" method "" port,
                    Call.dbUpdate userID updateCols
                      (User.zero.assignService result method serverType),
                    Call.removeContainer result.ID],
                  [], (st, (env.RemoveContainer r2 result.ID).2)⟩ := by
  have hGet : (withStore env).dbGet (st, r) userID = (Option.none, (st, r)) := by
    show (_, _) = (_, _)
    rw [hNone]
  have hFree : ((Option.none : Option User).getD User.zero).ServiceId = "" := rfl
  have hUpd : ∀ (result : ServiceResult) (r2 : R),
      (withStore env).dbUpdate (st, r2) userID updateCols
          (User.zero.assignService result method serverType)
        = ((0, Option.none), (st, r2)) := by
    intro result r2
    show (_, _) = (_, _)
    rw [Store.update_missing st userID _ _ hNone]
  have hStartAll : ∀ (port : Int) (r1 : R),
      env.GetAvailablePort r st.findPorts = (.ok port, r1) →
      (CreateServiceHandler (withStore env) (st, r) userID method serverType).calls.take 4
          = [Call.dbGet userID, Call.dbFindPorts, Call.getAvailablePort st.findPorts,
              Call.createAndStartContainer serverType "" method "" port]
        ∧ ∀ (result : ServiceResult) (r2 : R),
            env.CreateAndStartContainer r1 serverType "" method "" port = (.ok result, r2) →
            (withStore env).dbUpdate (st, r2) userID updateCols
                (User.zero.assignService result method serverType)
              = ((0, Option.none), (st, r2))
            ∧ CreateServiceHandler (withStore env) (st, r) userID method serverType
              = ⟨StatusOK, ⟨false, "更新用户信息失败!", .none⟩,
                  [Call.dbGet userID, Call.dbFindPorts, Call.getAvailablePort st.findPorts,
                    Call.createAndStartContainer serverType "" method "" port,
                    Call.dbUpdate userID updateCols
                      (User.zero.assignService result method serverType),
                    Call.removeContainer result.ID],
                  [], (st, (env.RemoveContainer r2 result.ID).2)⟩ := by
    intro port r1 hPort
    have hP : (withStore env).GetAvailablePort (st, r) st.findPorts = (.ok port, (st, r1)) := by
      show (_, _) = (_, _)
      rw [hPort]
    have hFail : ∀ (result : ServiceResult) (r2 : R),
        env.CreateAndStartContainer r1 serverType "" method "" port = (.ok result, r2) →
        CreateServiceHandler (withStore env) (st, r) userID method serverType
          = ⟨StatusOK, ⟨false, "更新用户信息失败!", .none⟩,
              [Call.dbGet userID, Call.dbFindPorts, Call.getAvailablePort st.findPorts,
                Call.createAndStartContainer serverType "" method "" port,
                Call.dbUpdate userID updateCols
                  (User.zero.assignService result method serverType),
                Call.removeContainer result.ID],
              [], (st, (env.RemoveContainer r2 result.ID).2)⟩ := by
      intro result r2 hStart
      have hS : (withStore env).CreateAndStartContainer (st, r1) serverType
          (stringsToLower (withStore env).unicodeToLower
            ((Option.none : Option User).getD User.zero).Username) method "" port
          = (.ok result, (st, r2)) := by
        change ((env.CreateAndStartContainer r1 serverType "" method "" port).1, st,
          (env.CreateAndStartContainer r1 serverType "" method "" port).2) = _
        rw [hStart]
      exact handler_update_failed (withStore env) (st, r) (st, r) (st, r) (st, r1) (st, r2)
        (st, r2) (st, (env.RemoveContainer r2 result.ID).2) userID method serverType Option.none
        st.findPorts port result 0 Option.none (env.RemoveContainer r2 result.ID).1 hValid hGet
        hFree rfl hP hS (hUpd result r2) (Or.inl rfl) rfl
    refine ⟨?_, fun result r2 hStart => ⟨hUpd result r2, hFail result r2 hStart⟩⟩
    cases hStart : env.CreateAndStartContainer r1 serverType "" method "" port with
    | mk res r2 =>
      cases res with
      | error err =>
        have hS : (withStore env).CreateAndStartContainer (st, r1) serverType
            (stringsToLower (withStore env).unicodeToLower
              ((Option.none : Option User).getD User.zero).Username) method "" port
            = (.error err, (st, r2)) := by
          change ((env.CreateAndStartContainer r1 serverType "" method "" port).1, st,
            (env.CreateAndStartContainer r1 serverType "" method "" port).2) = _
          rw [hStart]
        rw [handler_runtime_error (withStore env) (st, r) (st, r) (st, r) (st, r1) (st, r2)
          userID method serverType Option.none st.findPorts port err hValid hGet hFree rfl hP hS]
        rfl
      | ok result =>
        rw [hFail result r2 hStart]
        rfl
  refine ⟨?_, hStartAll⟩
  cases hPort : env.GetAvailablePort r st.findPorts with
  | mk res r1 =>
    cases res with
    | error err =>
      have hP : (withStore env).GetAvailablePort (st, r) st.findPorts
          = (.error err, (st, r1)) := by
        show (_, _) = (_, _)
        rw [hPort]
      rw [handler_no_port (withStore env) (st, r) (st, r) (st, r) (st, r1) userID method
        serverType Option.none st.findPorts err hValid hGet hFree rfl hP]
      rfl
    | ok port =>
      have h4 := (hStartAll port r1 hPort).1
      have := congrArg (List.take 3) h4
      simpa [List.take_take] using this

/-- User 9 has no row: a container is started for the empty name and removed again. -/
theorem createService_missing_user_witness :
    CreateServiceHandler (withStore demoEnv) (demoStore, 0) 9 "aes-256-cfb" "SS"
      = ⟨StatusOK, ⟨false, "更新用户信息失败!", .none⟩,
          [Call.dbGet 9, Call.dbFindPorts, Call.getAvailablePort [0, 0],
            Call.createAndStartContainer "SS" "" "aes-256-cfb" "" 10000,
            Call.dbUpdate 9 updateCols
              (User.zero.assignService ⟨"c", "", 10000, "secret", 0⟩ "aes-256-cfb" "SS"),
            Call.removeContainer "c"],
          [], (demoStore, 1)⟩ :=
  (((createService_missing_user demoEnv demoStore 0 9 "aes-256-cfb" "SS" (by decide) rfl).2
    10000 0 rfl).2 ⟨"c", "", 10000, "secret", 0⟩ 1 rfl).2

/-! ## PanelIndexHandler -/

/-- The handler makes one collaborator call, the read of the record, whatever it finds. -/
theorem panelIndex_calls {W : Type} (env : Env W) (w : W) (userID : Int) :
    (PanelIndexHandler env w userID).calls = [Call.dbGet userID]
    ∧ (PanelIndexHandler env w userID).world = (env.dbGet w userID).2 := by
  simp only [PanelIndexHandler]
  split <;> exact ⟨rfl, rfl⟩

/-- The response for a user id with no record. -/
theorem panelIndex_missing {W : Type} (env : Env W) (w w1 : W) (userID : Int)
    (hGet : env.dbGet w userID = (Option.none, w1)) :
    (PanelIndexHandler env w userID).resp = ⟨false, "用户已删除!", .none⟩ := by
  simp [PanelIndexHandler, hGet]

/-- The quota-remaining-percent field: the string 0 when the limit is 0, and otherwise
the two-decimal rendering of (limit - used) / limit * 100 in float32 arithmetic, the
arithmetic and the rendering being those of the environment. -/
theorem panelIndex_percent {W : Type} (env : Env W) (w w1 : W) (userID : Int) (user : User)
    (hGet : env.dbGet w userID = (some user, w1)) :
    ∃ uInfo, (PanelIndexHandler env w userID).resp.Data
        = .panel uInfo ssMethods ssrMethods servers
      ∧ uInfo.PackageLeftPercent
        = if user.PackageLimit = 0 then "0"
          else env.sprintf2f
            (env.f32Mul
              (env.f32Div (env.f32Sub (env.f32OfInt user.PackageLimit) user.PackageUsed)
                (env.f32OfInt user.PackageLimit))
              (env.f32OfInt 100)) := by
  by_cases hl : user.PackageLimit = 0
  · exact ⟨_, by simp only [PanelIndexHandler, hGet]; rfl, by simp [hl]⟩
  · exact ⟨_, by simp only [PanelIndexHandler, hGet]; rfl, by simp [hl]⟩

/-- C8. For an existing user the displayed service method is the stored method when it is
non-empty and aes-256-cfb otherwise, which is the first entry of the SS method list and
is permitted for the type SS; the displayed service type is the stored type when it is
non-empty and SS otherwise, the first entry of the server list. The only collaborator
call of the handler is the read of the record: it issues no update, and on the relational
store the table is left as it was, so the defaults are display-only. -/
theorem panelIndex_defaults {W : Type} (env : Env W) (w w1 : W) (userID : Int) (user : User)
    (hGet : env.dbGet w userID = (some user, w1)) :
    (∃ uInfo, (PanelIndexHandler env w userID).resp
        = ⟨true, "用户信息获取成功!", .panel uInfo ssMethods ssrMethods servers⟩
      ∧ uInfo.ServiceMethod
        = (if user.ServiceMethod = "" then "aes-256-cfb" else user.ServiceMethod)
      ∧ uInfo.ServiceType = (if user.ServiceType = "" then "SS" else user.ServiceType))
    ∧ ssMethods.head? = some "aes-256-cfb"
    ∧ Permitted "SS" "aes-256-cfb"
    ∧ servers.head? = some "SS"
    ∧ (PanelIndexHandler env w userID).calls = [Call.dbGet userID]
    ∧ (PanelIndexHandler env w userID).calls.filter Call.isUpdate = []
    ∧ (PanelIndexHandler env w userID).world = w1
    ∧ ∀ {R : Type} (base : Env R) (st : Store) (r : R) (id : Int),
        (PanelIndexHandler (withStore base) (st, r) id).world = (st, r) := by
  refine ⟨?_, rfl, by decide, rfl, ?_, ?_, ?_, ?_⟩
  · by_cases hm : user.ServiceMethod = "" <;> by_cases ht : user.ServiceType = "" <;>
      by_cases hl : user.PackageLimit = 0
    all_goals
      refine ⟨_, by simp only [PanelIndexHandler, hGet]; rfl, ?_, ?_⟩ <;> simp [hm, ht, hl]
  · exact (panelIndex_calls env w userID).1
  · rw [(panelIndex_calls env w userID).1]; rfl
  · rw [(panelIndex_calls env w userID).2, hGet]
  · intro R base st r id
    rw [(panelIndex_calls (withStore base) (st, r) id).2]
    rfl

/-- User 7 has no stored method or type: the panel shows aes-256-cfb and SS. -/
theorem panelIndex_defaults_witness :
    ∃ uInfo, (PanelIndexHandler (withStore demoEnv) (demoStore, 0) 7).resp
        = ⟨true, "用户信息获取成功!", .panel uInfo ssMethods ssrMethods servers⟩
      ∧ uInfo.ServiceMethod = "aes-256-cfb"
      ∧ uInfo.ServiceType = "SS" :=
  (panelIndex_defaults (withStore demoEnv) (demoStore, 0) (demoStore, 0) 7 (demoUser 7 "Alice")
    rfl).1

/-! ## The handler cut at its calls -/

/-- A finished request stays as it is. -/
theorem step_done {W : Type} (env : Env W) (req : Request) (resp : Response)
    (calls : List Call) (logs : List String) (w : W) :
    step env req ⟨.done resp, calls, logs⟩ w = (⟨.done resp, calls, logs⟩, w) := rfl

theorem runSolo_done {W : Type} (env : Env W) (req : Request) (resp : Response)
    (calls : List Call) (logs : List String) (w : W) (n : Nat) :
    runSolo env req n (⟨.done resp, calls, logs⟩, w) = (⟨.done resp, calls, logs⟩, w) := by
  induction n with
  | zero => rfl
  | succ n ih => simpa [runSolo, step_done] using ih

theorem pair_of_fst {A B : Type} (x : A × B) (a : A) (h : x.1 = a) : x = (a, x.2) := by
  rw [← h]

theorem pair_of_snd {A B : Type} (x : A × B) (b : B) (h : x.2 = b) : x = (x.1, b) := by
  rw [← h]

theorem runSolo_succ {W : Type} (env : Env W) (req : Request) (n : Nat) (c : Proc × W) :
    runSolo env req (n + 1) c = runSolo env req n (step env req c.1 c.2) := rfl

theorem step_start_not_permitted {W : Type} (env : Env W) (req : Request)
    (calls : List Call) (logs : List String) (w : W)
    (hBad : ¬ Permitted req.serverType req.method) :
    step env req ⟨.start, calls, logs⟩ w
      = (⟨.done ⟨false,
            if req.serverType = "SS" ∨ req.serverType = "SSR" then "加密方法配置错误!"
            else "服务类型配置错误!", .none⟩, calls, logs⟩, w) := by
  unfold Permitted at hBad
  simp only [step]
  rw [serverMethodsMap_get]
  by_cases h1 : req.serverType = "SSR"
  · have hm : req.method ∉ ssrMethods := fun hm => hBad (Or.inr ⟨h1, hm⟩)
    simp [h1, methodSet_getBool, hm]
  · by_cases h2 : req.serverType = "SS"
    · have hm : req.method ∉ ssMethods := fun hm => hBad (Or.inl ⟨h2, hm⟩)
      simp [h2, methodSet_getBool, hm]
    · simp [h1, h2]

theorem step_start_guard {W : Type} (env : Env W) (req : Request)
    (calls : List Call) (logs : List String) (w w1 : W) (got : Option User)
    (hValid : Permitted req.serverType req.method)
    (hGet : env.dbGet w req.userID = (got, w1))
    (hHas : (got.getD User.zero).ServiceId ≠ "") :
    step env req ⟨.start, calls, logs⟩ w
      = (⟨.done ⟨false, "服务已创建!", .none⟩, calls ++ [Call.dbGet req.userID], logs⟩, w1) := by
  obtain ⟨mm, h1, h2⟩ := (permitted_iff _ _).1 hValid
  simp [step, h1, h2, hGet, hHas]

theorem step_start_free {W : Type} (env : Env W) (req : Request)
    (calls : List Call) (logs : List String) (w w1 : W) (got : Option User)
    (hValid : Permitted req.serverType req.method)
    (hGet : env.dbGet w req.userID = (got, w1))
    (hFree : (got.getD User.zero).ServiceId = "") :
    step env req ⟨.start, calls, logs⟩ w
      = (⟨.findPorts (got.getD User.zero), calls ++ [Call.dbGet req.userID], logs⟩, w1) := by
  obtain ⟨mm, h1, h2⟩ := (permitted_iff _ _).1 hValid
  simp [step, h1, h2, hGet, hFree]

theorem step_findPorts {W : Type} (env : Env W) (req : Request)
    (calls : List Call) (logs : List String) (w : W) (user : User) :
    step env req ⟨.findPorts user, calls, logs⟩ w
      = (⟨.allocate user (env.dbFindPorts w).1, calls ++ [Call.dbFindPorts], logs⟩,
          (env.dbFindPorts w).2) := rfl

theorem step_allocate_error {W : Type} (env : Env W) (req : Request)
    (calls : List Call) (logs : List String) (w w1 : W) (user : User) (used : List Int)
    (err : String)
    (hPort : env.GetAvailablePort w used = (.error err, w1)) :
    step env req ⟨.allocate user used, calls, logs⟩ w
      = (⟨.done ⟨false, "创建服务失败,没有可用端口!", .none⟩,
          calls ++ [Call.getAvailablePort used], logs⟩, w1) := by
  simp [step, hPort]

theorem step_allocate_ok {W : Type} (env : Env W) (req : Request)
    (calls : List Call) (logs : List String) (w w1 : W) (user : User) (used : List Int)
    (port : Int)
    (hPort : env.GetAvailablePort w used = (.ok port, w1)) :
    step env req ⟨.allocate user used, calls, logs⟩ w
      = (⟨.create user port, calls ++ [Call.getAvailablePort used], logs⟩, w1) := by
  simp [step, hPort]

theorem step_create_error {W : Type} (env : Env W) (req : Request)
    (calls : List Call) (logs : List String) (w w1 : W) (user : User) (port : Int)
    (err : String)
    (hStart : env.CreateAndStartContainer w req.serverType
        (stringsToLower env.unicodeToLower user.Username) req.method "" port = (.error err, w1)) :
    step env req ⟨.create user port, calls, logs⟩ w
      = (⟨.done ⟨false, "创建服务失败!", .none⟩,
          calls ++ [Call.createAndStartContainer req.serverType
            (stringsToLower env.unicodeToLower user.Username) req.method "" port],
          logs ++ ["Create ss service error: " ++ err]⟩, w1) := by
  simp [step, hStart]

theorem step_create_ok {W : Type} (env : Env W) (req : Request)
    (calls : List Call) (logs : List String) (w w1 : W) (user : User) (port : Int)
    (result : ServiceResult)
    (hStart : env.CreateAndStartContainer w req.serverType
        (stringsToLower env.unicodeToLower user.Username) req.method "" port = (.ok result, w1)) :
    step env req ⟨.create user port, calls, logs⟩ w
      = (⟨.update (user.assignService result req.method req.serverType) result,
          calls ++ [Call.createAndStartContainer req.serverType
            (stringsToLower env.unicodeToLower user.Username) req.method "" port],
          logs⟩, w1) := by
  simp [step, hStart]

theorem step_update_failed {W : Type} (env : Env W) (req : Request)
    (calls : List Call) (logs : List String) (w w1 : W) (user : User)
    (result : ServiceResult) (affected : Int) (uerr : Option String)
    (hUpdate : env.dbUpdate w req.userID updateCols user = ((affected, uerr), w1))
    (hFail : affected = 0 ∨ uerr ≠ Option.none) :
    step env req ⟨.update user result, calls, logs⟩ w
      = (⟨.remove result, calls ++ [Call.dbUpdate req.userID updateCols user],
          logs ++ updateErrorLog uerr⟩, w1) := by
  have hcond : (affected == 0 || uerr.isSome) = true := by
    rcases hFail with h | h
    · simp [h]
    · cases uerr with
      | none => exact absurd rfl h
      | some e => simp
  simp only [step, hUpdate, hcond]
  simp

theorem step_update_ok {W : Type} (env : Env W) (req : Request)
    (calls : List Call) (logs : List String) (w w1 : W) (user : User)
    (result : ServiceResult) (affected : Int)
    (hUpdate : env.dbUpdate w req.userID updateCols user = ((affected, Option.none), w1))
    (hRows : affected ≠ 0) :
    step env req ⟨.update user result, calls, logs⟩ w
      = (⟨.done ⟨true, "服务创建成功!", .service (result.forDisplay user env.ssHost)⟩,
          calls ++ [Call.dbUpdate req.userID updateCols user], logs⟩, w1) := by
  simp only [step, hUpdate]
  simp [hRows]

theorem step_remove {W : Type} (env : Env W) (req : Request)
    (calls : List Call) (logs : List String) (w : W) (result : ServiceResult) :
    step env req ⟨.remove result, calls, logs⟩ w
      = (⟨.done ⟨false, "更新用户信息失败!", .none⟩,
          calls ++ [Call.removeContainer result.ID], logs⟩,
          (env.RemoveContainer w result.ID).2) := rfl

/-- Run alone, the request cut at its calls answers after at most six steps, with the
response, the calls, the log lines and the world of CreateServiceHandler. -/
theorem runSolo_eq_handler {W : Type} (env : Env W) (req : Request) (w : W) :
    runSolo env req 6 (Proc.new, w)
      = (⟨.done (CreateServiceHandler env w req.userID req.method req.serverType).resp,
          (CreateServiceHandler env w req.userID req.method req.serverType).calls,
          (CreateServiceHandler env w req.userID req.method req.serverType).logs⟩,
        (CreateServiceHandler env w req.userID req.method req.serverType).world) := by
  by_cases hValid : Permitted req.serverType req.method
  swap
  · rw [handler_not_permitted _ _ _ _ _ hValid, runSolo_succ, Proc.new,
      step_start_not_permitted _ _ _ _ _ hValid, runSolo_done]
  by_cases hFree : ((env.dbGet w req.userID).1.getD User.zero).ServiceId = ""
  swap
  · rw [handler_guard env w _ req.userID req.method req.serverType _ hValid rfl hFree,
      runSolo_succ, Proc.new, step_start_guard env req _ _ w _ _ hValid rfl hFree, runSolo_done]
    rfl
  rw [runSolo_succ, Proc.new, step_start_free env req _ _ w _ _ hValid rfl hFree,
    runSolo_succ, step_findPorts, runSolo_succ]
  cases hPort : (env.GetAvailablePort (env.dbFindPorts (env.dbGet w req.userID).2).2
      (env.dbFindPorts (env.dbGet w req.userID).2).1).1 with
  | error err =>
    have hP := pair_of_fst _ _ hPort
    rw [handler_no_port env w _ _ _ req.userID req.method req.serverType _ _ err hValid rfl
      hFree rfl hP, step_allocate_error env req _ _ _ _ _ _ err hP, runSolo_done]
    rfl
  | ok port =>
    have hP := pair_of_fst _ _ hPort
    rw [step_allocate_ok env req _ _ _ _ _ _ port hP, runSolo_succ]
    cases hStart : (env.CreateAndStartContainer
        (env.GetAvailablePort (env.dbFindPorts (env.dbGet w req.userID).2).2
          (env.dbFindPorts (env.dbGet w req.userID).2).1).2 req.serverType
        (stringsToLower env.unicodeToLower
          ((env.dbGet w req.userID).1.getD User.zero).Username) req.method "" port).1 with
    | error err =>
      have hS := pair_of_fst _ _ hStart
      rw [handler_runtime_error env w _ _ _ _ req.userID req.method req.serverType _ _ port err
        hValid rfl hFree rfl hP hS, step_create_error env req _ _ _ _ _ port err hS, runSolo_done]
      rfl
    | ok result =>
      have hS := pair_of_fst _ _ hStart
      rw [step_create_ok env req _ _ _ _ _ port result hS, runSolo_succ]
      by_cases hFail : (env.dbUpdate (env.CreateAndStartContainer
            (env.GetAvailablePort (env.dbFindPorts (env.dbGet w req.userID).2).2
              (env.dbFindPorts (env.dbGet w req.userID).2).1).2 req.serverType
            (stringsToLower env.unicodeToLower
              ((env.dbGet w req.userID).1.getD User.zero).Username) req.method "" port).2
            req.userID updateCols
            (((env.dbGet w req.userID).1.getD User.zero).assignService result req.method
              req.serverType)).1.1 = 0
          ∨ (env.dbUpdate (env.CreateAndStartContainer
            (env.GetAvailablePort (env.dbFindPorts (env.dbGet w req.userID).2).2
              (env.dbFindPorts (env.dbGet w req.userID).2).1).2 req.serverType
            (stringsToLower env.unicodeToLower
              ((env.dbGet w req.userID).1.getD User.zero).Username) req.method "" port).2
            req.userID updateCols
            (((env.dbGet w req.userID).1.getD User.zero).assignService result req.method
              req.serverType)).1.2 ≠ Option.none
      · rw [handler_update_failed env w _ _ _ _ _ _ req.userID req.method req.serverType _ _ port
          result _ _ _ hValid rfl hFree rfl hP hS rfl hFail rfl,
          step_update_failed env req _ _ _ _ _ result _ _ rfl hFail, runSolo_succ, step_remove,
          runSolo_done]
        rfl
      · rw [not_or, not_not] at hFail
        have hU := pair_of_fst _ _ (pair_of_snd _ _ hFail.2)
        rw [handler_success env w _ _ _ _ _ req.userID req.method req.serverType _ _ port
          result _ hValid rfl hFree rfl hP hS hU hFail.1,
          step_update_ok env req _ _ _ _ _ result _ hU hFail.1, runSolo_done]
        rfl

/-! ## Two requests racing on the relational store -/

theorem removals_append_of_not_remove (calls : List Call) (logs logs2 : List String) (pc pc2 : Pc)
    (c : Call) (hc : c.isRemove = false) (h : (Proc.mk pc calls logs).removals = 0) :
    (Proc.mk pc2 (calls ++ [c]) logs2).removals = 0 := by
  simp only [Proc.removals, List.filter_append, List.length_append] at h ⊢
  simp [List.filter, hc, h]

/-- One step of a permitted request whose row exists keeps it on its way, the refusal met
in that step being added to those met so far; only the update step changes the table, and
it keeps the row. -/
theorem step_good {R : Type} (env : Env R) (req : Request) (p : Proc) (st : Store) (r : R)
    (met : Option Refusal)
    (hValid : Permitted req.serverType req.method)
    (hRow : (st.get req.userID).isSome = true)
    (hStart : p.pc = .start → ∃ u, st.get req.userID = some u ∧ u.ServiceId = "")
    (hGood : GoodProc p met) :
    GoodProc (step (withStore env) req p (st, r)).1
      (met.or (refusalAt (withStore env) req p (st, r)))
    ∧ (step (withStore env) req p (st, r)).1.pc ≠ .start
    ∧ ((step (withStore env) req p (st, r)).2.1.get req.userID).isSome = true
    ∧ (p.pc.atUpdate = false → (step (withStore env) req p (st, r)).2.1 = st)
    ∧ (step (withStore env) req p (st, r)).1.pc.togo ≤ p.pc.togo - 1 := by
  obtain ⟨pc, calls, logs⟩ := p
  obtain ⟨hRem, hPc⟩ := hGood
  cases pc with
  | start =>
    have hm : met = Option.none := hPc
    subst hm
    obtain ⟨u, hu, hfree⟩ := hStart rfl
    have hGet : (withStore env).dbGet (st, r) req.userID = (some u, (st, r)) := by
      show (_, _) = (_, _)
      rw [hu]
    rw [step_start_free (withStore env) req calls logs (st, r) (st, r) (some u) hValid hGet hfree]
    refine ⟨⟨removals_append_of_not_remove calls logs logs _ _ _ rfl hRem, rfl⟩, ?_, hRow,
      fun _ => rfl, ?_⟩
    · simp
    · simp [Pc.togo]
  | findPorts user =>
    have hm : met = Option.none := hPc
    subst hm
    rw [step_findPorts]
    refine ⟨⟨removals_append_of_not_remove calls logs logs _ _ _ rfl hRem, rfl⟩, ?_, hRow,
      fun _ => rfl, ?_⟩
    · simp
    · simp [Pc.togo]
  | allocate user used =>
    have hm : met = Option.none := hPc
    subst hm
    cases hPort : (env.GetAvailablePort r used).1 with
    | error e =>
      have hP : (withStore env).GetAvailablePort (st, r) used
          = (.error e, (st, (env.GetAvailablePort r used).2)) := Prod.ext hPort rfl
      have hR : refusalAt (withStore env) req ⟨.allocate user used, calls, logs⟩ (st, r)
          = some .port := by
        simp only [refusalAt, hP]
      rw [step_allocate_error (withStore env) req calls logs _ _ user used e hP, hR]
      refine ⟨⟨removals_append_of_not_remove calls logs logs _ _ _ rfl hRem, ?_⟩, ?_, hRow,
        fun _ => rfl, ?_⟩
      · rfl
      · simp
      · simp [Pc.togo]
    | ok port =>
      have hP : (withStore env).GetAvailablePort (st, r) used
          = (.ok port, (st, (env.GetAvailablePort r used).2)) := Prod.ext hPort rfl
      have hR : refusalAt (withStore env) req ⟨.allocate user used, calls, logs⟩ (st, r)
          = Option.none := by
        simp only [refusalAt, hP]
      rw [step_allocate_ok (withStore env) req calls logs _ _ user used port hP, hR]
      refine ⟨⟨removals_append_of_not_remove calls logs logs _ _ _ rfl hRem, rfl⟩, ?_, hRow,
        fun _ => rfl, ?_⟩
      · simp
      · simp [Pc.togo]
  | create user port =>
    have hm : met = Option.none := hPc
    subst hm
    cases hS0 : (env.CreateAndStartContainer r req.serverType
        (stringsToLower env.unicodeToLower user.Username) req.method "" port).1 with
    | error e =>
      have hS : (withStore env).CreateAndStartContainer (st, r) req.serverType
          (stringsToLower (withStore env).unicodeToLower user.Username) req.method "" port
          = (.error e, (st, (env.CreateAndStartContainer r req.serverType
              (stringsToLower env.unicodeToLower user.Username) req.method "" port).2)) :=
        Prod.ext hS0 rfl
      have hR : refusalAt (withStore env) req ⟨.create user port, calls, logs⟩ (st, r)
          = some .container := by
        simp only [refusalAt, hS]
      rw [step_create_error (withStore env) req calls logs _ _ user port e hS, hR]
      refine ⟨⟨removals_append_of_not_remove calls logs _ _ _ _ rfl hRem, ?_⟩, ?_, hRow,
        fun _ => rfl, ?_⟩
      · rfl
      · simp
      · simp [Pc.togo]
    | ok result =>
      have hS : (withStore env).CreateAndStartContainer (st, r) req.serverType
          (stringsToLower (withStore env).unicodeToLower user.Username) req.method "" port
          = (.ok result, (st, (env.CreateAndStartContainer r req.serverType
              (stringsToLower env.unicodeToLower user.Username) req.method "" port).2)) :=
        Prod.ext hS0 rfl
      have hR : refusalAt (withStore env) req ⟨.create user port, calls, logs⟩ (st, r)
          = Option.none := by
        simp only [refusalAt, hS]
      rw [step_create_ok (withStore env) req calls logs _ _ user port result hS, hR]
      refine ⟨⟨removals_append_of_not_remove calls logs logs _ _ _ rfl hRem, rfl⟩, ?_, hRow,
        fun _ => rfl, ?_⟩
      · simp
      · simp [Pc.togo]
  | update user result =>
    have hm : met = Option.none := hPc
    subst hm
    have hRows : (st.update req.userID updateCols user).1 ≠ 0 :=
      (Store.update_affected st req.userID updateCols user).2 hRow
    have hU : (withStore env).dbUpdate (st, r) req.userID updateCols user
        = (((st.update req.userID updateCols user).1, Option.none),
            ((st.update req.userID updateCols user).2, r)) := rfl
    rw [step_update_ok (withStore env) req calls logs _ _ user result _ hU hRows]
    refine ⟨⟨removals_append_of_not_remove calls logs logs _ _ _ rfl hRem, ?_⟩, ?_, ?_,
      ?_, ?_⟩
    · show answers Option.none _ = true
      simp [answers]
    · simp
    · show ((st.update req.userID updateCols user).2.get req.userID).isSome = true
      rw [Store.get_update]
      simpa using hRow
    · intro h; simp [Pc.atUpdate] at h
    · simp [Pc.togo]
  | remove result => exact absurd hPc id
  | done resp =>
    rw [step_done]
    have hR : refusalAt (withStore env) req ⟨.done resp, calls, logs⟩ (st, r) = Option.none := rfl
    rw [hR, Option.or_none]
    exact ⟨⟨hRem, hPc⟩, by simp, hRow, fun _ => rfl, by simp [Pc.togo]⟩

/-- One scheduled step keeps the invariant of the race, as long as no request updates the
row while the other has not read it. -/
theorem stepPair_inv {R : Type} (env : Env R) (r1 r2 : Request)
    (h1 : Permitted r1.serverType r1.method) (h2 : Permitted r2.serverType r2.method)
    (hSame : r1.userID = r2.userID) (b : Bool) (c : Pair (Store × R))
    (met1 met2 : Option Refusal)
    (hInv : RaceInv r1.userID c met1 met2)
    (hOk : (if b then !(c.p1.pc.atUpdate && c.p2.pc.atStart)
      else !(c.p2.pc.atUpdate && c.p1.pc.atStart)) = true) :
    RaceInv r1.userID (stepPair (withStore env) r1 r2 b c)
      (met1.or (ownRefusal (withStore env) r1 r2 true b c))
      (met2.or (ownRefusal (withStore env) r1 r2 false b c))
    ∧ (stepPair (withStore env) r1 r2 b c).p1.pc.togo
        ≤ c.p1.pc.togo - (if b then 1 else 0)
    ∧ (stepPair (withStore env) r1 r2 b c).p2.pc.togo
        ≤ c.p2.pc.togo - (if b then 0 else 1) := by
  obtain ⟨p1, p2, st, r⟩ := c
  obtain ⟨hRow, hFresh, hG1, hG2⟩ := hInv
  simp only at hRow hFresh hG1 hG2 hOk
  cases b with
  | true =>
    obtain ⟨g, hne, hrow2, hsame, hgo⟩ :=
      step_good env r1 p1 st r met1 h1 hRow (fun hs => hFresh (Or.inl hs)) hG1
    have o1 : ownRefusal (withStore env) r1 r2 true true ⟨p1, p2, (st, r)⟩
        = refusalAt (withStore env) r1 p1 (st, r) := rfl
    have o2 : ownRefusal (withStore env) r1 r2 false true ⟨p1, p2, (st, r)⟩ = Option.none := rfl
    rw [o1, o2, Option.or_none]
    simp only [stepPair, if_true]
    refine ⟨⟨hrow2, ?_, g, hG2⟩, by simpa using hgo, by simp⟩
    rintro (hs | hs)
    · exact absurd hs hne
    · have hs2 : p2.pc = .start := hs
      by_cases hu : p1.pc.atUpdate = true
      · rw [hu, hs2] at hOk
        simp [Pc.atStart] at hOk
      · have hu2 : p1.pc.atUpdate = false := by simpa using hu
        simp only at hs
        show ∃ u, (step (withStore env) r1 p1 (st, r)).2.1.get r1.userID = some u ∧ _
        rw [hsame hu2]
        exact hFresh (Or.inr hs)
  | false =>
    have o1 : ownRefusal (withStore env) r1 r2 true false ⟨p1, p2, (st, r)⟩ = Option.none := rfl
    have o2 : ownRefusal (withStore env) r1 r2 false false ⟨p1, p2, (st, r)⟩
        = refusalAt (withStore env) r2 p2 (st, r) := rfl
    rw [o1, o2, Option.or_none]
    rw [hSame] at hRow hFresh ⊢
    obtain ⟨g, hne, hrow2, hsame, hgo⟩ :=
      step_good env r2 p2 st r met2 h2 hRow (fun hs => hFresh (Or.inr hs)) hG2
    simp only [stepPair, Bool.false_eq_true, if_false]
    refine ⟨⟨hrow2, ?_, hG1, g⟩, by simp, by simpa using hgo⟩
    rintro (hs | hs)
    · have hs2 : p1.pc = .start := hs
      by_cases hu : p2.pc.atUpdate = true
      · rw [hu, hs2] at hOk
        simp [Pc.atStart] at hOk
      · have hu2 : p2.pc.atUpdate = false := by simpa using hu
        simp only at hs
        show ∃ u, (step (withStore env) r2 p2 (st, r)).2.1.get r2.userID = some u ∧ _
        rw [hsame hu2]
        exact hFresh (Or.inl hs)
    · exact absurd hs hne

/-- A schedule on which reads precede updates keeps the invariant of the race, the refusals
met along it being added to those met so far, and each scheduled step of a request
brings it one call closer to its answer. -/
theorem runPair_inv {R : Type} (env : Env R) (r1 r2 : Request)
    (h1 : Permitted r1.serverType r1.method) (h2 : Permitted r2.serverType r2.method)
    (hSame : r1.userID = r2.userID) (s : List Bool) :
    ∀ (c : Pair (Store × R)) (met1 met2 : Option Refusal), RaceInv r1.userID c met1 met2 →
      readsPrecedeUpdates (withStore env) r1 r2 s c = true →
      RaceInv r1.userID (runPair (withStore env) r1 r2 s c)
        (met1.or (refusalAlong (withStore env) r1 r2 true s c))
        (met2.or (refusalAlong (withStore env) r1 r2 false s c))
      ∧ (runPair (withStore env) r1 r2 s c).p1.pc.togo ≤ c.p1.pc.togo - s.count true
      ∧ (runPair (withStore env) r1 r2 s c).p2.pc.togo ≤ c.p2.pc.togo - s.count false := by
  induction s with
  | nil =>
    intro c met1 met2 hInv _
    refine ⟨?_, by simp [runPair], by simp [runPair]⟩
    simpa [refusalAlong, runPair, Option.or_none] using hInv
  | cons b s ih =>
    intro c met1 met2 hInv hSched
    simp only [readsPrecedeUpdates, Bool.and_eq_true] at hSched
    obtain ⟨hInv2, hg1, hg2⟩ := stepPair_inv env r1 r2 h1 h2 hSame b c met1 met2 hInv hSched.1
    obtain ⟨hInv3, hf1, hf2⟩ := ih _ _ _ hInv2 hSched.2
    refine ⟨?_, ?_, ?_⟩
    · rw [Option.or_assoc, Option.or_assoc] at hInv3
      exact hInv3
    · show (runPair (withStore env) r1 r2 s (stepPair (withStore env) r1 r2 b c)).p1.pc.togo ≤ _
      cases b <;> simp [List.count_cons] at hg1 ⊢ <;> omega
    · show (runPair (withStore env) r1 r2 s (stepPair (withStore env) r1 r2 b c)).p2.pc.togo ≤ _
      cases b <;> simp [List.count_cons] at hg2 ⊢ <;> omega

theorem togo_zero_done (pc : Pc) (h : pc.togo = 0) : ∃ resp, pc = .done resp := by
  cases pc <;> simp [Pc.togo] at h
  exact ⟨_, rfl⟩

/-- C9, as the code has it. The update is keyed by the user id alone, so on the relational
store two permitted requests of the same unprovisioned user, scheduled so that both read
the record before either updates it and given five steps each, both answer, and neither
loses the race. Each request answers according to what its own calls met along the
schedule: the success when neither its allocation nor its container start was refused,
the no-available-port response when the allocator refused its allocation, the
provisioning-failure response when the runtime refused its container start. None answers
with the already-provisioned or the persistence failure, no compensating removal is made,
and both report success when neither request is refused. -/
theorem race_both_settle {R : Type} (env : Env R) (st : Store) (r : R) (r1 r2 : Request)
    (s : List Bool)
    (h1 : Permitted r1.serverType r1.method) (h2 : Permitted r2.serverType r2.method)
    (hSame : r1.userID = r2.userID)
    (hRow : ∃ u, st.get r1.userID = some u ∧ u.ServiceId = "")
    (hSched : readsPrecedeUpdates (withStore env) r1 r2 s (Pair.start st r) = true)
    (hLen1 : 5 ≤ s.count true) (hLen2 : 5 ≤ s.count false) :
    ∃ resp1 resp2,
      (runPair (withStore env) r1 r2 s (Pair.start st r)).p1.pc = .done resp1
      ∧ (runPair (withStore env) r1 r2 s (Pair.start st r)).p2.pc = .done resp2
      ∧ answers (refusalAlong (withStore env) r1 r2 true s (Pair.start st r)) resp1 = true
      ∧ answers (refusalAlong (withStore env) r1 r2 false s (Pair.start st r)) resp2 = true
      ∧ lostRace resp1 = false ∧ lostRace resp2 = false
      ∧ (runPair (withStore env) r1 r2 s (Pair.start st r)).p1.removals = 0
      ∧ (runPair (withStore env) r1 r2 s (Pair.start st r)).p2.removals = 0
      ∧ (refusalAlong (withStore env) r1 r2 true s (Pair.start st r) = Option.none →
          refusalAlong (withStore env) r1 r2 false s (Pair.start st r) = Option.none →
          resp1.Success = true ∧ resp2.Success = true
          ∧ exactlyOneSucceeds (runPair (withStore env) r1 r2 s (Pair.start st r)) = false) := by
  have hInv0 : RaceInv r1.userID (Pair.start st r) Option.none Option.none := by
    obtain ⟨u, hu, hfree⟩ := hRow
    refine ⟨by simp [Pair.start, hu], fun _ => ⟨u, hu, hfree⟩, ⟨rfl, rfl⟩, ⟨rfl, rfl⟩⟩
  obtain ⟨⟨-, -, hG1, hG2⟩, hf1, hf2⟩ :=
    runPair_inv env r1 r2 h1 h2 hSame s (Pair.start st r) _ _ hInv0 hSched
  rw [Option.none_or] at hG1 hG2
  have t1 : (runPair (withStore env) r1 r2 s (Pair.start st r)).p1.pc.togo = 0 := by
    have : (Pair.start st r).p1.pc.togo = 5 := rfl
    omega
  have t2 : (runPair (withStore env) r1 r2 s (Pair.start st r)).p2.pc.togo = 0 := by
    have : (Pair.start st r).p2.pc.togo = 5 := rfl
    omega
  obtain ⟨resp1, e1⟩ := togo_zero_done _ t1
  obtain ⟨resp2, e2⟩ := togo_zero_done _ t2
  have s1 : answers (refusalAlong (withStore env) r1 r2 true s (Pair.start st r)) resp1 = true := by
    have := hG1.2; rw [e1] at this; exact this
  have s2 : answers (refusalAlong (withStore env) r1 r2 false s (Pair.start st r)) resp2 = true := by
    have := hG2.2; rw [e2] at this; exact this
  have notLost : ∀ (k : Option Refusal) (resp : Response), answers k resp = true →
      lostRace resp = false := by
    intro k resp hk
    rcases k with _ | k
    · simp only [answers, Bool.and_eq_true] at hk
      simp [lostRace, hk.1]
    · cases k
      · have : resp = ⟨false, "创建服务失败,没有可用端口!", .none⟩ := by simpa [answers] using hk
        subst this
        decide
      · have : resp = ⟨false, "创建服务失败!", .none⟩ := by simpa [answers] using hk
        subst this
        decide
  refine ⟨resp1, resp2, e1, e2, s1, s2, notLost _ _ s1, notLost _ _ s2, hG1.1, hG2.1, ?_⟩
  intro n1 n2
  rw [n1] at s1
  rw [n2] at s2
  simp only [answers, Bool.and_eq_true] at s1 s2
  refine ⟨s1.1, s2.1, ?_⟩
  unfold exactlyOneSucceeds
  rw [e1, e2]
  simp [lostRace, s1.1, s2.1]

/-- The two requests of user 7 along the demo schedule are refused nothing: both report
success, and no container is removed. -/
theorem race_both_settle_witness :
    ∃ resp1 resp2,
      (runPair (withStore demoEnv) demoReq1 demoReq2 demoSchedule (Pair.start demoStore 0)).p1.pc
        = .done resp1
      ∧ (runPair (withStore demoEnv) demoReq1 demoReq2 demoSchedule (Pair.start demoStore 0)).p2.pc
        = .done resp2
      ∧ resp1.Success = true ∧ resp2.Success = true
      ∧ (runPair (withStore demoEnv) demoReq1 demoReq2 demoSchedule
          (Pair.start demoStore 0)).p1.removals = 0
      ∧ (runPair (withStore demoEnv) demoReq1 demoReq2 demoSchedule
          (Pair.start demoStore 0)).p2.removals = 0 := by
  obtain ⟨resp1, resp2, a, b, -, -, -, -, e, f, g⟩ :=
    race_both_settle demoEnv demoStore 0 demoReq1 demoReq2 demoSchedule (by decide) (by decide)
      rfl ⟨demoUser 7 "Alice", rfl, rfl⟩ rfl (by decide) (by decide)
  exact ⟨resp1, resp2, a, b, (g rfl rfl).1, (g rfl rfl).2.1, e, f⟩

/-- C9, as stated, fails. With the two requests of user 7 scheduled so that both read the
record, then the first runs to its answer, then the second, both report success (the
second update, keyed by the user id alone, affects the row again and overwrites the first
service), and no container is removed. -/
theorem race_counterexample :
    ¬ RaceClaim demoEnv demoStore 0 demoReq1 demoReq2 demoSchedule := by
  intro hClaim
  have hOne := hClaim (by decide) (by decide) rfl ⟨demoUser 7 "Alice", rfl, rfl⟩ rfl rfl rfl
  have f1 : (runPair (withStore demoEnv) demoReq1 demoReq2 demoSchedule
      (Pair.start demoStore 0)).p1.pc
      = .done ⟨true, "服务创建成功!", .service ⟨"c", "relay.example", 10000, "secret", 100⟩⟩ := rfl
  have f2 : (runPair (withStore demoEnv) demoReq1 demoReq2 demoSchedule
      (Pair.start demoStore 0)).p2.pc
      = .done ⟨true, "服务创建成功!", .service ⟨"cc", "relay.example", 10001, "secret", 100⟩⟩ := rfl
  have f3 : (runPair (withStore demoEnv) demoReq1 demoReq2 demoSchedule
      (Pair.start demoStore 0)).p1.removals
      + (runPair (withStore demoEnv) demoReq1 demoReq2 demoSchedule
      (Pair.start demoStore 0)).p2.removals = 0 := rfl
  unfold exactlyOneSucceeds at hOne
  rw [f1, f2, f3] at hOne
  simp [lostRace] at hOne

end Ignite
